import Mathlib

set_option maxRecDepth 100000

/-!
# Verification of `mahespth/ansible-tools` against its specification

Shallow embedding, in Lean 4, of the parts of the repository that the
claims under scrutiny are about:

* `aap/aap-monitor/aap-monitor.py` — `classify_status_text`, the
  `job_sort_key`-based descending sort of the job list, and the thread
  pool of `run_dashboard`;
* `aap/gateway-monitor/gateway-monitor.py` — the thread pool of
  `run_dashboard`;
* `aap_tui2/aap_tui.py` — the job marker of `_poll_jobs_once` and the
  incremental log streaming of `_refresh_job_output`;
* `ansible-flag-parser.py` / `ansible-flag-parser-container.py` —
  `load_metadata_from_self` and the actual text of both script files;
* `ansible-write.py` — a Python-lexer-level bracket scan over the actual
  text of the file;
* `filter_plugins/urlsafe_b64.py` — the base64 filter pair, including a
  model of CPython's `base64.b64decode` (non-strict `binascii`);
* `library/aap_controller_hosts_enabled.py` — the check-mode path of
  `main`;
* `compose2podman.py` — `load_env_files` and `handle_environment`.

Python strings are modelled as Lean `String` (Python string length and
slicing count code points, as do `String.length`/`String.drop` here);
Python `dict`s used only through `update`/lookup are modelled as
`String → Option String`; fallible Python code returns `Except`/`Option`.
-/

namespace AnsibleTools

/-! ## Generic helpers shared by several embeddings -/

/-- Python's substring test `pat in s`, on character lists:
`true` iff `pat` occurs contiguously in `s`. -/
def listContainsSub (pat s : List Char) : Bool :=
  (List.range (s.length + 1)).any (fun i => pat.isPrefixOf (s.drop i))

/-- Python's substring test `pat in s` for strings. -/
def strContainsSub (s pat : String) : Bool :=
  listContainsSub pat.data s.data

/-- Index of the first occurrence of `pat` as a contiguous sublist of `s`
(`None` when `pat` does not occur).  Mirrors the leftmost-match behaviour
of `re.search` for a literal pattern. -/
def findSub (pat : List Char) : List Char → Option Nat
  | [] => if pat.isEmpty then some 0 else none
  | c :: rest =>
    if pat.isPrefixOf (c :: rest) then some 0
    else (findSub pat rest).map (· + 1)

/-! ## `aap/aap-monitor/aap-monitor.py` — `classify_status_text`

```python
def classify_status_text(status):
    if status is None:
        return "unknown"
    s = str(status).lower()
    if s in ("good", "ok", "okay", "healthy", "green",
             "running", "successful", "completed", "finished"):
        return "good"
    if any(word in s for word in ("warn", "degrad", "yellow")):
        return "warn"
    if any(word in s for word in ("bad", "down", "error", "fail", "failed",
                                  "critical", "red")):
        return "bad"
    return "unknown"
```
-/

/-- The tuple of exact matches classified as `"good"`. -/
def goodStatuses : List String :=
  ["good", "ok", "okay", "healthy", "green",
   "running", "successful", "completed", "finished"]

/-- The substrings classified as `"warn"`. -/
def warnWords : List String := ["warn", "degrad", "yellow"]

/-- The substrings classified as `"bad"`. -/
def badWords : List String := ["bad", "down", "error", "fail", "failed", "critical", "red"]

/-- `classify_status_text` of `aap-monitor.py`.  The argument is the
status value, `none` standing for Python `None`; a non-`None` value is
used through `str(status).lower()`, modelled by `String.toLower`. -/
def classify_status_text (status : Option String) : String :=
  match status with
  | none => "unknown"
  | some st =>
    let s := st.toLower
    if goodStatuses.contains s then "good"
    else if warnWords.any (fun word => strContainsSub s word) then "warn"
    else if badWords.any (fun word => strContainsSub s word) then "bad"
    else "unknown"

/-! ## `aap/aap-monitor/aap-monitor.py` — job sorting in `run_dashboard`

```python
def job_sort_key(j):
    try:
        return int(j.get("id", 0))
    except Exception:
        return 0

jobs_sorted = sorted(jobs, key=job_sort_key, reverse=True)
```
-/

/-- The value found under the `"id"` key of a fetched job, as far as
`int(...)` is concerned: either a value `int()` converts to `n`
(an int, a bool, an int-like string or float), or a value on which
`int()` raises. -/
inductive IdVal where
  | intLike (n : Int)
  | other
deriving DecidableEq, Repr

/-- A fetched job: only its `"id"` field (possibly absent) matters to
the ordering. -/
structure Job where
  id : Option IdVal
deriving DecidableEq, Repr

/-- `job_sort_key` of `run_dashboard`: `int(j.get("id", 0))`, with any
exception mapped to `0` (a missing `"id"` defaults to `0` as well). -/
def job_sort_key (j : Job) : Int :=
  match j.id with
  | some (.intLike n) => n
  | some .other => 0
  | none => 0

/-- `sorted(jobs, key=job_sort_key, reverse=True)`: a stable sort that
puts larger keys first, modelled by `List.mergeSort` with the
larger-key-first (non-strict) comparison. -/
def jobs_sorted (jobs : List Job) : List Job :=
  jobs.mergeSort (fun a b => decide (job_sort_key b ≤ job_sort_key a))

/-! ## Thread pools of the two dashboards (C3)

`aap-monitor.py`, `run_dashboard`:
```python
executor = ThreadPoolExecutor(max_workers=2)
```

`gateway-monitor.py`, `run_dashboard` (the endpoint list is the
positional `endpoints` argument, `nargs="+"`, so any non-empty list of
URLs may arrive here):
```python
executor = ThreadPoolExecutor(max_workers=len(endpoints)) if async_requests else None
```
-/

/-- The `max_workers` of the executor created by `run_dashboard` in
`aap-monitor.py`. -/
def aapMonitorMaxWorkers : Nat := 2

/-- The `max_workers` of the executor created by `run_dashboard` in
`gateway-monitor.py` when `--async-requests` is given:
`len(endpoints)`. -/
def gatewayMonitorMaxWorkers (endpoints : List String) : Nat :=
  endpoints.length

/-! ## `aap_tui2/aap_tui.py` — the job marker of `_poll_jobs_once` (C7)

```python
status = str(job.get("status") or "unknown")
...
marker = "⏳" if status in ("running", "pending", "waiting") else ("✅" if status == "successful" else "❌")
```
-/

/-- The marker chosen by `_poll_jobs_once` for a job whose (string)
status is `status`. -/
def job_marker (status : String) : String :=
  if status ∈ (["running", "pending", "waiting"] : List String) then "⏳"
  else if status = "successful" then "✅"
  else "❌"

/-! ## `aap_tui2/aap_tui.py` — `_refresh_job_output` (C4)

```python
@dataclass
class JobState:
    job_id: int
    template_id: int
    status: str = "unknown"
    started: Optional[str] = None
    finished: Optional[str] = None
    last_stdout_len: int = 0
    cached_stdout: str = ""

async def _refresh_job_output(self, job_id: int, full: bool) -> None:
    js = self.jobs.get(job_id)
    try:
        txt = await self.client.get_job_stdout_txt(job_id)
    except Exception as e:
        if full:
            self.output.insert(f"Error fetching stdout: ...")
        return
    if js is None:
        js = JobState(job_id=job_id, template_id=self.selected_template_id or -1)
        self.jobs[job_id] = js
    if full:
        js.cached_stdout = txt
        js.last_stdout_len = len(txt)
        self.output.clear()
        self.output.insert(txt)
        self.output.move_cursor_end()
        return
    # incremental append
    if len(txt) > js.last_stdout_len:
        delta = txt[js.last_stdout_len :]
        js.cached_stdout = txt
        js.last_stdout_len = len(txt)
        self.output.insert(delta)
        self.output.move_cursor_end()
```

The output widget is modelled by the string of text it holds
(`clear` empties it, `insert` appends, `move_cursor_end` does not change
the text).  The fetch is an `Except`: `Except.error e` models
`get_job_stdout_txt` raising.
-/

/-- The two stdout-cache fields of `JobState` (the other fields play no
part in `_refresh_job_output`). -/
structure JobStateS where
  last_stdout_len : Nat
  cached_stdout : String
deriving DecidableEq, Repr

/-- The freshly constructed `JobState(...)`: the dataclass defaults are
`last_stdout_len = 0`, `cached_stdout = ""`. -/
def JobStateS.init : JobStateS := ⟨0, ""⟩

/-- `_refresh_job_output`.  Input: the stored `self.jobs.get(job_id)`
(`none` when absent), the fetch outcome, the `full` flag and the current
widget text; output: the stored job state and widget text afterwards. -/
def refresh_job_output (js : Option JobStateS) (fetched : Except String String)
    (full : Bool) (out : String) : Option JobStateS × String :=
  match fetched with
  | .error e =>
    if full then (js, out ++ "Error fetching stdout: " ++ e ++ "\n") else (js, out)
  | .ok txt =>
    let js0 := js.getD JobStateS.init
    if full then
      (some ⟨txt.length, txt⟩, txt)
    else if js0.last_stdout_len < txt.length then
      (some ⟨txt.length, txt⟩, out ++ txt.drop js0.last_stdout_len)
    else
      (some js0, out)

/-- The cache invariant of the job-following TUI:
`js.last_stdout_len == len(js.cached_stdout)` whenever a state is
stored. -/
def JSInv : Option JobStateS → Prop
  | none => True
  | some js => js.last_stdout_len = js.cached_stdout.length

instance (js : Option JobStateS) : Decidable (JSInv js) := by
  cases js with
  | none => exact isTrue trivial
  | some s => exact inferInstanceAs (Decidable (s.last_stdout_len = s.cached_stdout.length))

/-! ## `library/aap_controller_hosts_enabled.py` — check mode (C9)

The relevant part of `main()` (after the matched hosts have been fetched
and collected as dicts with `id`, `name`, `enabled`):

```python
# De-dup by id (in case multiple queries overlap)
uniq = {}
for h in matched_hosts:
    uniq[h["id"]] = h
matched_hosts = list(uniq.values())

to_change = []
already = 0
for h in matched_hosts:
    cur = h.get("enabled")
    if cur is True or cur is False:
        if cur == desired_enabled:
            already += 1
            continue
    # If enabled field missing/None, assume needs change
    to_change.append(h)

if module.check_mode:
    module.exit_json(
        changed=len(to_change) > 0,
        matched=len(matched_hosts),
        changed_count=len(to_change),
        already_in_state=already,
        ...)
```

Only when not in check mode does the module build PATCH requests (one
per host of `to_change`).  The non-check-mode branch is modelled under
the simplification that every PATCH succeeds; claim C9 only exercises
the check-mode branch, whose embedding is exact.
-/

/-- A matched Controller host as collected by `main`: its `id`, `name`
and `enabled` field; `enabled = none` models the field being missing,
`None`, or any non-boolean value (the code tests `cur is True or cur is
False`). -/
structure CHost where
  id : Int
  name : String
  enabled : Option Bool
deriving DecidableEq, Repr

/-- The `uniq` de-duplication: a dict keyed by `id`, keeping the first
occurrence's position and the last occurrence's value, read back with
`list(uniq.values())`. -/
def dedup_by_id (hosts : List CHost) : List CHost :=
  (hosts.foldl
    (fun acc h =>
      if acc.any (fun p => p.1 == h.id) then
        acc.map (fun p => if p.1 == h.id then (p.1, h) else p)
      else acc ++ [(h.id, h)])
    []).map (·.2)

/-- What the module reports and does: the `exit_json` fields used by the
claim, plus the list of PATCH requests `(host id, new enabled value)`
issued against the Controller. -/
structure ModuleResult where
  changed : Bool
  matched : Nat
  changed_count : Nat
  already_in_state : Nat
  patches : List (Int × Bool)
deriving DecidableEq, Repr

/-- The tail of `main()` of `aap_controller_hosts_enabled`, from the
de-duplication onwards, as a function of the collected matched hosts,
the requested `enabled` value and `check_mode`. -/
def hosts_enabled_run (check_mode : Bool) (matched_hosts : List CHost)
    (desired : Bool) : ModuleResult :=
  let hosts := dedup_by_id matched_hosts
  let toChange := hosts.filter (fun h => !(h.enabled == some desired))
  let already := (hosts.filter (fun h => h.enabled == some desired)).length
  if check_mode then
    { changed := decide (0 < toChange.length), matched := hosts.length
      changed_count := toChange.length, already_in_state := already
      patches := [] }
  else
    { changed := decide (0 < toChange.length), matched := hosts.length
      changed_count := toChange.length, already_in_state := already
      patches := toChange.map (fun h => (h.id, desired)) }

/-- Controller-side state: the `enabled` flag of each host id. -/
def ControllerState := Int → Option Bool

/-- Effect of a list of PATCH requests on the Controller state. -/
def apply_patches (st : ControllerState) (ps : List (Int × Bool)) : ControllerState :=
  ps.foldl (fun st p => fun i => if i = p.1 then some p.2 else st i) st

/-! ## `compose2podman.py` — environment merging (C10)

```python
def load_env_files(env_files):
    env_dict = {}
    for env_file in env_files:
        with open(env_file, "r") as f:
            for line in f:
                line = line.strip()
                if not line or line.startswith("#"):
                    continue
                if "=" not in line:
                    continue
                key, val = line.split("=", 1)
                env_dict[key.strip()] = val.strip()
    return env_dict

def handle_environment(service_def, cmd):
    merged_env = {}
    env_files = service_def.get("env_file", [])
    ...
    if env_files:
        merged_env.update(load_env_files(env_files))
    env = service_def.get("environment", {})
    if isinstance(env, dict):
        merged_env.update(env)
    ...
```

Env files are modelled by their list of lines; dicts used only through
`update`/lookup are modelled as `String → Option String`; the inline
`environment` mapping (dict form) is modelled by its item list in
insertion order.
-/

/-- Python `str.strip()`: drop whitespace from both ends. -/
def pyStrip (s : String) : String :=
  ⟨((s.data.dropWhile Char.isWhitespace).reverse.dropWhile Char.isWhitespace).reverse⟩

/-- One iteration of the line loop of `load_env_files`: `strip` the
line, skip it when empty, a `#` comment, or without `=`, otherwise split
at the first `=` and strip both halves. -/
def parse_env_line (line : String) : Option (String × String) :=
  let l := pyStrip line
  if l.data.isEmpty then none
  else if l.data.head? = some '#' then none
  else
    match findSub ['='] l.data with
    | none => none
    | some i => some (pyStrip ⟨l.data.take i⟩, pyStrip ⟨l.data.drop (i + 1)⟩)

/-- `env_dict[key] = val` for each surviving line of one file, applied
to an incoming dict. -/
def envFileFold (d : String → Option String) (lines : List String) :
    String → Option String :=
  lines.foldl
    (fun d line =>
      match parse_env_line line with
      | some kv => fun k => if k = kv.1 then some kv.2 else d k
      | none => d) d

/-- The dict a single env file defines on its own. -/
def fileDict (lines : List String) : String → Option String :=
  envFileFold (fun _ => none) lines

/-- `load_env_files`: one dict, filled file by file in listed order. -/
def load_env_files (env_files : List (List String)) : String → Option String :=
  env_files.foldl envFileFold (fun _ => none)

/-- Python `d.update(items)` for an item list in iteration order. -/
def dictUpdate (d : String → Option String) (kvs : List (String × String)) :
    String → Option String :=
  kvs.foldl (fun d kv => fun k => if k = kv.1 then some kv.2 else d k) d

/-- The Python dict built from an item list. -/
def pyDict (kvs : List (String × String)) : String → Option String :=
  dictUpdate (fun _ => none) kvs

/-- The merged environment computed by `handle_environment` (dict-form
inline `environment`), i.e. the mapping written to the temporary env
file. -/
def handle_environment_merged (env_files : List (List String))
    (inlineEnv : List (String × String)) : String → Option String :=
  let merged0 : String → Option String := fun _ => none
  let merged1 :=
    if env_files.isEmpty then merged0
    else fun k => (load_env_files env_files k).orElse (fun _ => merged0 k)
  dictUpdate merged1 inlineEnv

/-! ## `filter_plugins/urlsafe_b64.py` (C8)

```python
def urlsafe_b64encode(value):
    if isinstance(value, str):
        value = value.encode('utf-8')
    return base64.urlsafe_b64encode(value).decode('utf-8')

def urlsafe_b64decode(value):
    if isinstance(value, str):
        value = value.encode('ascii')
    value += b"=" * (-len(value) % 4)
    return base64.b64decode(value)
```

Bytes are modelled as `List Nat` (each < 256).  `base64.b64decode` is
CPython's non-strict `binascii.a2b_base64`: characters outside the
standard alphabet and `=` are discarded, data characters are consumed in
quanta of four, a `=` after two or three data characters ends the decode
early, and a quantum left incomplete at the end raises
`binascii.Error("Incorrect padding")` (`"Invalid base64-encoded string:
number of data characters cannot be 1 more than a multiple of 4"` when a
`=` follows a single data character).  The model reproduces exactly this
behaviour, checked against CPython on
`Pz8`, `Pz8_`, `Pz8=`, `Pz-8`, `Pz==`, `P===`, `====`, `Pz8=Pz8=`,
`ab=c`, `AAAA`, `AA==AA==` and the empty string.
-/

/-- UTF-8 encoding of one code point (1–4 bytes). -/
def utf8EncodeChar (c : Char) : List Nat :=
  let n := c.toNat
  if n < 0x80 then [n]
  else if n < 0x800 then [0xC0 + n / 0x40, 0x80 + n % 0x40]
  else if n < 0x10000 then
    [0xE0 + n / 0x1000, 0x80 + (n / 0x40) % 0x40, 0x80 + n % 0x40]
  else
    [0xF0 + n / 0x40000, 0x80 + (n / 0x1000) % 0x40,
     0x80 + (n / 0x40) % 0x40, 0x80 + n % 0x40]

/-- Python `value.encode('utf-8')`. -/
def utf8Encode (s : String) : List Nat :=
  s.data.foldr (fun c acc => utf8EncodeChar c ++ acc) []

/-- The URL-safe base64 alphabet (`-` and `_` at indices 62 and 63). -/
def urlsafeAlphabet : List Char :=
  "ABCDEFGHIJKLMNOPQRSTUVWXYZabcdefghijklmnopqrstuvwxyz0123456789-_".data

/-- The standard base64 alphabet (`+` and `/` at indices 62 and 63). -/
def stdAlphabet : List Char :=
  "ABCDEFGHIJKLMNOPQRSTUVWXYZabcdefghijklmnopqrstuvwxyz0123456789+/".data

/-- Character for a 6-bit group, URL-safe alphabet. -/
def urlsafeChar (i : Nat) : Char := urlsafeAlphabet.getD i 'A'

/-- Index of a character in the standard base64 alphabet. -/
def stdB64Index (c : Char) : Option Nat :=
  stdAlphabet.findIdx? (fun a => a = c)

/-- `base64.urlsafe_b64encode` on a byte list: 3-byte groups become four
alphabet characters; a 2-byte tail becomes three characters and `=`; a
1-byte tail two characters and `==`. -/
def b64UrlsafeEncodeBytes : List Nat → List Char
  | b0 :: b1 :: b2 :: rest =>
    let n := (b0 * 256 + b1) * 256 + b2
    urlsafeChar (n / 262144) :: urlsafeChar ((n / 4096) % 64) ::
      urlsafeChar ((n / 64) % 64) :: urlsafeChar (n % 64) ::
      b64UrlsafeEncodeBytes rest
  | [b0, b1] =>
    [urlsafeChar (b0 / 4), urlsafeChar ((b0 % 4) * 16 + b1 / 16),
     urlsafeChar ((b1 % 16) * 4), '=']
  | [b0] =>
    [urlsafeChar (b0 / 4), urlsafeChar ((b0 % 4) * 16), '=', '=']
  | [] => []

/-- `urlsafe_b64encode` of the filter plugin, for a `str` argument. -/
def urlsafe_b64encode (value : String) : String :=
  ⟨b64UrlsafeEncodeBytes (utf8Encode value)⟩

/-- A surviving token of `binascii.a2b_base64`: a data character (by its
6-bit value) or a `=` pad. -/
inductive B64Tok where
  | idx (i : Nat)
  | pad
deriving DecidableEq, Repr

/-- Keep only standard-alphabet characters and `=`; everything else is
discarded by `base64.b64decode`. -/
def b64Tokens (s : List Char) : List B64Tok :=
  s.filterMap (fun c =>
    if c = '=' then some B64Tok.pad else (stdB64Index c).map B64Tok.idx)

/-- Bytes of a full 4-character quantum. -/
def b64Quantum4 (i0 i1 i2 i3 : Nat) : List Nat :=
  let n := ((i0 * 64 + i1) * 64 + i2) * 64 + i3
  [n / 65536, (n / 256) % 256, n % 256]

/-- Bytes of a 3-character quantum closed by `=`. -/
def b64Quantum3 (i0 i1 i2 : Nat) : List Nat :=
  [i0 * 4 + i1 / 16, (i1 % 16) * 16 + i2 / 4]

/-- Byte of a 2-character quantum closed by `==`. -/
def b64Quantum2 (i0 i1 : Nat) : List Nat :=
  [i0 * 4 + i1 / 16]

/-- `binascii.a2b_base64` (non-strict), on the surviving tokens. -/
def a2b_base64 : List B64Tok → Except String (List Nat)
  | .idx i0 :: .idx i1 :: .idx i2 :: .idx i3 :: rest =>
    match a2b_base64 rest with
    | .ok bs => .ok (b64Quantum4 i0 i1 i2 i3 ++ bs)
    | .error e => .error e
  | .idx i0 :: .idx i1 :: .idx i2 :: .pad :: _ => .ok (b64Quantum3 i0 i1 i2)
  | .idx i0 :: .idx i1 :: .pad :: .pad :: _ => .ok (b64Quantum2 i0 i1)
  | .idx _ :: .pad :: _ =>
    .error "Invalid base64-encoded string: number of data characters cannot be 1 more than a multiple of 4"
  | .pad :: _ => .ok []
  | [] => .ok []
  | _ => .error "Incorrect padding"

/-- `urlsafe_b64decode` of the filter plugin, for a `str` argument (the
argument is assumed ASCII, as every output of `urlsafe_b64encode` is;
`value.encode('ascii')` would raise otherwise): re-pad to a multiple of
four characters, then `base64.b64decode`. -/
def urlsafe_b64decode (value : String) : Except String (List Nat) :=
  let v := value.data ++ List.replicate ((4 - value.length % 4) % 4) '='
  a2b_base64 (b64Tokens v)

/-! ## `ansible-flag-parser.py` and `ansible-flag-parser-container.py` (C5)

```python
def load_metadata_from_self():
    """Load metadata by reading YAML directly from the script file itself."""
    with open(__file__, 'r') as f:
        content = f.read()
    metadata_match = re.search(r"--- METADATA ---\n(.*?)\n--- END METADATA ---", content, re.DOTALL)
    if metadata_match:
        metadata_yaml = metadata_match.group(1)
        return yaml.safe_load(metadata_yaml)
    else:
        raise ValueError("No metadata found in the script.")

def main():
    metadata = load_metadata_from_self()   # first statement of main()
    ...                                    # only then are flags parsed and a playbook launched
```

Both scripts contain this identical function and call it as the first
statement of `main()`.  For the literal pattern with a non-greedy
`(.*?)` group, `re.search` matches exactly when an occurrence of
`"\n--- END METADATA ---"` starts at or after the end of the leftmost
occurrence of `"--- METADATA ---\n"` (a later start-marker occurrence
sees only a subset of the end-marker positions a leftmost one sees), and
the group of the leftmost match is the text between that leftmost
start marker and the first end marker after it.  `load_metadata_from_self`
below implements exactly that; its argument is the text of the script
file, embedded verbatim (in chunks, so each can be evaluated by the
kernel).
-/

/-- The literal `"--- METADATA ---\n"` the regex must match first. -/
def metaStart : List Char := "--- METADATA ---\n".data

/-- The literal `"\n--- END METADATA ---"` the regex must match second. -/
def metaEnd : List Char := "\n--- END METADATA ---".data

/-- `load_metadata_from_self`, as a function of the script file text:
the matched YAML text, or the `ValueError` message. (The `yaml.safe_load`
of a successful match is not modelled; neither file reaches it.) -/
def load_metadata_from_self (content : String) : Except String String :=
  match findSub metaStart content.data with
  | none => .error "No metadata found in the script."
  | some i =>
    match findSub metaEnd (content.data.drop (i + metaStart.length)) with
    | none => .error "No metadata found in the script."
    | some j => .ok ⟨(content.data.drop (i + metaStart.length)).take j⟩

/-- The head of `main()` of either flag-parser script, for a script that
has passed Python load-time compilation: `main` loads the metadata first
and only on success goes on (to parse flags and launch a playbook,
abstracted as `Unit` here); the `ValueError` propagates.  Whether a
script ever reaches `main()` at all is a separate, load-time question:
`ansible-flag-parser.py` does, while `ansible-flag-parser-container.py`
does not — see `pyBareColonCount` and the C5 theorems below. -/
def flag_parser_main (content : String) : Except String Unit :=
  match load_metadata_from_self content with
  | .error e => .error e
  | .ok _ => .ok ()

/-- Verbatim text of `src/ansible-flag-parser.py`, characters 0 to 600. -/
def flagP0 : String :=
  "#!/usr/bin/env python3\n\n\n# ansible-flag-parser: run ansible playbooks using any flags\n\n# This is a poc\n# Stephen Maher\n\nimport argparse\nimport json\nimport yaml\nimport os\nimport subprocess\nimport sys\nimport signal\nimport re\n\ndef load_metadata_from_self():\n    \"\"\"Load metadata by reading YAML directly from the script file itself.\"\"\"\n    with open(__file__, \x27r\x27) as f:\n        content = f.read()\n\n    # Use regex to capture YAML embedded after \"--- METADATA ---\" until \"--- END METADATA ---\"\n    metadata_match = re.search(r\"--- METADATA ---\\n(.*?)\\n--- END METADATA ---\", content, re.DOTALL)\n    if m"

/-- Verbatim text of `src/ansible-flag-parser.py`, characters 600 to 1200. -/
def flagP1 : String :=
  "etadata_match:\n        metadata_yaml = metadata_match.group(1)\n        return yaml.safe_load(metadata_yaml)\n    else:\n        raise ValueError(\"No metadata found in the script.\")\n\ndef parse_flags(metadata):\n    \"\"\"Parse flags from the metadata.\"\"\"\n    parser = argparse.ArgumentParser(description=\"Flag parser for ansible-playbook\")\n\n    # Define flags based on metadata\n    for flag, properties in metadata.items():\n        if flag.startswith(\x27_\x27):  # Skip internal variables\n            continue\n        parser.add_argument(\n            f\"--\x7bflag\x7d\",\n            help=properties.get(\"help\", \"\"),\n   "

/-- Verbatim text of `src/ansible-flag-parser.py`, characters 1200 to 1800. -/
def flagP2 : String :=
  "         required=properties.get(\"required\", False),\n            default=properties.get(\"default\", None),\n        )\n\n    # Extra flag for CTRL+C handling and rescuer playbook\n    parser.add_argument(\"--no-ctrlc\", action=\"store_true\", help=\"Disable CTRL+C trapping.\")\n    parser.add_argument(\"--rescuer\", action=\"store_true\", help=\"Execute rescuer playbook on failure.\")\n\n    return parser.parse_args()\n\ndef set_env_vars(env_vars):\n    \"\"\"Set environment variables based on metadata.\"\"\"\n    for key, value in env_vars.items():\n        os.environ[key] = str(value)\n\ndef disable_ctrlc():\n    \"\"\"Disable "

/-- Verbatim text of `src/ansible-flag-parser.py`, characters 1800 to 2400. -/
def flagP3 : String :=
  "CTRL+C trapping if --no-ctrlc is set.\"\"\"\n    signal.signal(signal.SIGINT, signal.SIG_IGN)\n\ndef main():\n    # Load metadata from the script itself\n    metadata = load_metadata_from_self()\n\n    # Parse arguments based on metadata\n    args = parse_flags(metadata)\n\n    # Disable CTRL+C trapping if --no-ctrlc is set\n    if args.no_ctrlc:\n        disable_ctrlc()\n\n    # Set environment variables if specified in metadata\n    env_vars = metadata.get(\"environment\", \x7b\x7d)\n    set_env_vars(env_vars)\n\n    # Prepare extra vars and options for ansible-playbook\n    extra_vars = \x7bflag: getattr(args, flag) for fl"

/-- Verbatim text of `src/ansible-flag-parser.py`, characters 2400 to 2897. -/
def flagP4 : String :=
  "ag in vars(args)\x7d\n\n    # Run ansible-playbook command using __file__ as the playbook\n    command = [\n        \"ansible-playbook\",\n        __file__,  # Self-reference as the playbook\n        \"-e\", json.dumps(extra_vars),\n    ]\n    if args.rescuer:\n        command.append(\"--rescuer-playbook\")  # Run rescuer if needed\n\n    try:\n        subprocess.run(command, check=True)\n    except subprocess.CalledProcessError as e:\n        sys.exit(e.returncode)\n\nif __name__ == \"__main__\":\n    main()\n    \n    \n"

/-- The full verbatim text of `src/ansible-flag-parser.py`. -/
def ansibleFlagParserSrc : String := flagP0 ++ (flagP1 ++ (flagP2 ++ (flagP3 ++ (flagP4))))

/-- Verbatim text of `src/ansible-flag-parser-container.py`, characters 0 to 600. -/
def ctA0 : String :=
  "#!/usr/bin/env python3\n\nimport argparse\nimport json\nimport yaml\nimport os\nimport subprocess\nimport sys\nimport signal\nimport re\nimport syslog\nimport tempfile\nimport time\n\ndef load_metadata_from_self():\n    \"\"\"Load metadata by reading YAML directly from the script file itself.\"\"\"\n    with open(__file__, \x27r\x27) as f:\n        content = f.read()\n\n    # Use regex to capture YAML embedded after \"--- METADATA ---\" until \"--- END METADATA ---\"\n    metadata_match = re.search(r\"--- METADATA ---\\n(.*?)\\n--- END METADATA ---\", content, re.DOTALL)\n    if metadata_match:\n        metadata_yaml = metadata_match."

/-- Verbatim text of `src/ansible-flag-parser-container.py`, characters 600 to 1200. -/
def ctA1 : String :=
  "group(1)\n        return yaml.safe_load(metadata_yaml)\n    else:\n        raise ValueError(\"No metadata found in the script.\")\n\ndef parse_flags(metadata):\n    \"\"\"Parse flags from the metadata.\"\"\"\n    parser = argparse.ArgumentParser(description=\"Flag parser for ansible-playbook\")\n\n    # Define flags based on metadata\n    for flag, properties in metadata.items():\n        if flag.startswith(\x27_\x27):  # Skip internal variables\n            continue\n        parser.add_argument(\n            f\"--\x7bflag\x7d\",\n            help=properties.get(\"help\", \"\"),\n            required=properties.get(\"required\", False),\n "

/-- Verbatim text of `src/ansible-flag-parser-container.py`, characters 1200 to 1800. -/
def ctA2 : String :=
  "           default=properties.get(\"default\", None),\n        )\n\n    # Extra flag for CTRL+C handling and rescuer playbook\n    parser.add_argument(\"--no-ctrlc\", action=\"store_true\", help=\"Disable CTRL+C trapping.\")\n    parser.add_argument(\"--rescuer\", action=\"store_true\", help=\"Execute rescuer playbook on failure.\")\n\n    return parser.parse_args()\n\ndef set_env_vars(env_vars):\n    \"\"\"Set environment variables based on metadata.\"\"\"\n    for key, value in env_vars.items():\n        os.environ[key] = str(value)\n\ndef disable_ctrlc():\n    \"\"\"Disable CTRL+C trapping if --no-ctrlc is set.\"\"\"\n    signal.si"

/-- Verbatim text of `src/ansible-flag-parser-container.py`, characters 1800 to 2400. -/
def ctA3 : String :=
  "gnal(signal.SIGINT, signal.SIG_IGN)\n\ndef write_temp_requirements_file(galaxy_requirements):\n    \"\"\"Write galaxy requirements to a temporary file and return the file path.\"\"\"\n    temp_file = tempfile.NamedTemporaryFile(delete=False, suffix=\".yml\")\n    with open(temp_file.name, \x27w\x27) as f:\n        yaml.dump(galaxy_requirements, f)\n    return temp_file.name\n\ndef install_requirements(container_engine, container_image, requirements_file, roles_dir, collections_dir):\n    \"\"\"Install required Ansible roles and collections persistently in the container using shared volumes.\"\"\"\n    command = [\n        co"

/-- Verbatim text of `src/ansible-flag-parser-container.py`, characters 2400 to 3000. -/
def ctA4 : String :=
  "ntainer_engine, \"run\", \"--rm\",\n        \"-v\", f\"\x7broles_dir\x7d:/root/.ansible/roles\",\n        \"-v\", f\"\x7bcollections_dir\x7d:/root/.ansible/collections\",\n        \"-v\", f\"\x7bos.getcwd()\x7d:/workspace\",\n        \"-w\", \"/workspace\",\n        container_image,\n        \"ansible-galaxy\", \"install\", \"-r\", requirements_file,\n        \"--roles-path\", \"/root/.ansible/roles\",\n        \"--collections-path\", \"/root/.ansible/collections\"\n    ]\n    log_message(\"Installing Ansible requirements persistently in container...\")\n    subprocess.run(command, check=True)\n\ndef log_message(message):\n    \"\"\"Log a message to syslog based "

/-- Verbatim text of `src/ansible-flag-parser-container.py`, characters 3000 to 3600. -/
def ctA5 : String :=
  "on syslog settings in the metadata.\"\"\"\n    syslog.syslog(syslog_level | syslog_priority, message)\n\ndef main():\n    # Load metadata from the script itself\n    metadata = load_metadata_from_self()\n\n    # Parse arguments based on metadata\n    args = parse_flags(metadata)\n\n    # Initialize syslog with specified level and priority\n    global syslog_level, syslog_priority\n    syslog_level = getattr(syslog, metadata.get(\"syslog_level\", \"LOG_INFO\"))\n    syslog_priority = getattr(syslog, metadata.get(\"syslog_priority\", \"LOG_USER\"))\n    syslog.openlog(logoption=syslog.LOG_PID, facility=syslog_priority)\n"

/-- Verbatim text of `src/ansible-flag-parser-container.py`, characters 3600 to 4200. -/
def ctA6 : String :=
  "\n    # Log script arguments at start\n    log_message(f\"Script called with arguments: \x7bsys.argv\x7d\")\n\n    # Track start time for execution timing\n    start_time = time.time()\n\n    # Disable CTRL+C trapping if --no-ctrlc is set\n    if args.no_ctrlc:\n        disable_ctrlc()\n\n    # Set environment variables if specified in metadata\n    env_vars = metadata.get(\"environment\", \x7b\x7d)\n    set_env_vars(env_vars)\n\n    # Prepare extra vars and options for ansible-playbook\n    extra_vars = \x7bflag: getattr(args, flag) for flag in vars(args)\x7d\n\n    # Determine whether to use ansible-playbook or ansible-navigator\n "

/-- Verbatim text of `src/ansible-flag-parser-container.py`, characters 4200 to 4800. -/
def ctA7 : String :=
  "   use_ansible_navigator = metadata.get(\"use_ansible_navigator\", False)\n    use_container = metadata.get(\"use_container\", False)\n    container_engine = metadata.get(\"container_engine\", \"podman\")  # Default to podman if not specified\n    container_image = metadata.get(\"container_image\", \"quay.io/ansible/ansible-runner\")  # Default image\n\n    # Define persistent directories for Ansible roles and collections\n    requirements_dir = os.path.join(os.getcwd(), \"ansible_requirements\")\n    roles_dir = os.path.join(requirements_dir, \"roles\")\n    collections_dir = os.path.join(requirements_dir, \"collecti"

/-- Verbatim text of `src/ansible-flag-parser-container.py`, characters 4800 to 5400. -/
def ctA8 : String :=
  "ons\")\n    os.makedirs(roles_dir, exist_ok=True)\n    os.makedirs(collections_dir, exist_ok=True)\n\n    # Check if galaxy requirements need to be installed\n    galaxy_requirements = metadata.get(\"galaxy_requirements\", None)\n    if galaxy_requirements:\n        requirements_file = write_temp_requirements_file(galaxy_requirements)\n\n        if use_container:\n            # Install requirements persistently in the container\n            install_requirements(container_engine, container_image, requirements_file, roles_dir, collections_dir)\n        else:\n            # Install requirements locally, specifyi"

/-- Verbatim text of `src/ansible-flag-parser-container.py`, characters 5400 to 6000. -/
def ctA9 : String :=
  "ng paths for roles and collections\n            command = [\n                \"ansible-galaxy\", \"install\", \"-r\", requirements_file,\n                \"--roles-path\", roles_dir,\n                \"--collections-path\", collections_dir\n            ]\n            log_message(\"Installing Ansible requirements locally...\")\n            subprocess.run(command, check=True)\n\n    # Construct the command based on whether ansible-navigator or ansible-playbook is used\n    if use_ansible_navigator:\n        base_command = [\"ansible-navigator\", \"run\", __file__, \"--extra-vars\", json.dumps(extra_vars)]\n    else:\n        "

/-- Verbatim text of `src/ansible-flag-parser-container.py`, characters 6000 to 6600. -/
def ctA10 : String :=
  "base_command = [\"ansible-playbook\", __file__, \"-e\", json.dumps(extra_vars)]\n\n    # If containerized execution is enabled, wrap the command with the container engine\n    if use_container:\n        command = [\n            container_engine, \"run\", \"--rm\",\n            \"-v\", f\"\x7broles_dir\x7d:/root/.ansible/roles\",  # Mount roles dir for persistent roles\n            \"-v\", f\"\x7bcollections_dir\x7d:/root/.ansible/collections\",  # Mount collections dir for persistent collections\n            \"-v\", f\"\x7bos.getcwd()\x7d:/workspace\",\n            \"-w\", \"/workspace\",\n            container_image,\n        ] + base_command\n "

/-- Verbatim text of `src/ansible-flag-parser-container.py`, characters 6600 to 7200. -/
def ctA11 : String :=
  "   else:\n        command = base_command\n\n    if args.rescuer:\n        command.append(\"--rescuer-playbook\")  # Run rescuer if needed\n\n    try:\n        subprocess.run(command, check=True)\n        result = \"SUCCESS\"\n    except subprocess.CalledProcessError as e:\n        result = f\"FAILED with exit code \x7be.returncode\x7d\"\n        sys.exit(e.returncode)\n    finally:\n        # Calculate execution time and log completion\n        execution_time = time.time() - start_time\n        log_message(f\"Execution completed in \x7bexecution_time:.2f\x7d seconds with result: \x7bresult\x7d\")\n\n        # Clean up the temporary req"

/-- Verbatim text of `src/ansible-flag-parser-container.py`, characters 7200 to 7403. -/
def ctA12 : String :=
  "uirements file if it was created\n        if galaxy_requirements and os.path.exists(requirements_file):\n            os.remove(requirements_file)\n\nif __name__ == \"__main__\":\n    main()\n\n# --- METADATA ---\n"

/-- Verbatim text of `src/ansible-flag-parser-container.py`, characters 7403 to 8003. -/
def ctB0 : String :=
  "# Embedded YAML metadata defining playbooks and variables\nplaybook: main_playbook.yml\nflags:\n  flag1:\n    help: \"First flag\"\n    required: true\n  flag2:\n    help: \"Second flag\"\n    default: \"value2\"\n  no_ctrlc:\n    help: \"Disable CTRL+C trapping\"\n    required: false\n    default: false\n  rescuer:\n    help: \"Execute rescuer playbook on failure\"\n    required: false\n    default: false\nuse_ansible_navigator: true  # Internal option to use ansible-navigator instead of ansible-playbook\nuse_container: true           # Enable running within a container\ncontainer_engine: \"podman\"     # Specify container"

/-- Verbatim text of `src/ansible-flag-parser-container.py`, characters 8003 to 8457. -/
def ctB1 : String :=
  " engine (podman or docker)\ncontainer_image: \"quay.io/ansible/ansible-runner\"  # Container image with Ansible installed\ngalaxy_requirements:           # Requirements to install with ansible-galaxy\n  roles:\n    - src: geerlingguy.apache\n      version: \"1.0.0\"\n  collections:\n    - name: community.general\n      version: \"3.2.0\"\nsyslog_level: LOG_INFO         # Syslog level for logging\nsyslog_priority: LOG_USER      # Syslog priority/facility\nenvironment\n"

/-- The full verbatim text of `src/ansible-flag-parser-container.py`. -/
def ansibleFlagParserContainerSrc : String := ctA0 ++ (ctA1 ++ (ctA2 ++ (ctA3 ++ (ctA4 ++ (ctA5 ++ (ctA6 ++ (ctA7 ++ (ctA8 ++ (ctA9 ++ (ctA10 ++ (ctA11 ++ (ctA12 ++ (ctB0 ++ (ctB1))))))))))))))

/-! ## `ansible-write.py` — bracket completeness (C6)

The last line of `ansible-write.py` (inside `refresh_playbook_display`)
is

```python
        tasks_display = [{"number": i + 1, **task} for i, task in enumerate(self.playbook[0]["tasks"]
```

and the file ends there.  CPython refuses to compile a module whose
brackets are unbalanced at end of file (`SyntaxError: '(' was never
closed`), before any code runs.  The scanner below is a model of the
bracket-relevant part of the CPython (pre-3.12) tokenizer: it tracks
`#` comments, one-quote and triple-quote string literals with backslash
escapes (a whole f-string is a single string token, so brackets inside
it do not count), and a stack of the `( [ \x7b` brackets opened in code.
A file is bracket-complete only if the scan ends in code mode with an
empty stack; a Python program that fails this check cannot parse, so
every invocation of the script dies at load time.  `ansible-write.py`
has no raw strings and no unterminated one-line strings, so the model's
simplifications are exact on this input.
-/

/-- Lexer mode of the bracket scanner: code, comment, just-opened
quote(s), inside a one-quote string (plain/escape), or inside a
triple-quote string (with the count of consecutive closing quotes seen,
plain/escape). -/
inductive PyLexMode where
  | code
  | comment
  | strO1 (q : Char)
  | strO2 (q : Char)
  | str1 (q : Char)
  | str1e (q : Char)
  | str3 (q : Char) (closes : Nat)
  | str3e (q : Char)
deriving DecidableEq, Repr

/-- Scanner state: mode, stack of open brackets (most recent first), and
a flag cleared on a mismatched closing bracket or an unterminated
one-line string. -/
structure PyScanState where
  mode : PyLexMode
  stack : List Char
  ok : Bool
deriving DecidableEq, Repr

/-- Opening brackets. -/
def isOpenBracket (c : Char) : Bool :=
  c = Char.ofNat 40 || c = Char.ofNat 91 || c = Char.ofNat 123

/-- The opener matching a closing bracket. -/
def closerFor (c : Char) : Option Char :=
  if c = Char.ofNat 41 then some (Char.ofNat 40)
  else if c = Char.ofNat 93 then some (Char.ofNat 91)
  else if c = Char.ofNat 125 then some (Char.ofNat 123)
  else none

/-- Is the character a Python quote (`"` or the single quote)? -/
def isPyQuote (c : Char) : Bool :=
  c = Char.ofNat 34 || c = Char.ofNat 39

/-- One character in code mode: `#` opens a comment, a quote opens a
string, brackets push/pop the stack (a mismatch clears `ok`). -/
def pyCodeChar (st : PyScanState) (c : Char) : PyScanState :=
  if c = Char.ofNat 35 then { st with mode := .comment }
  else if isPyQuote c then { st with mode := .strO1 c }
  else if isOpenBracket c then { st with stack := c :: st.stack }
  else
    match closerFor c with
    | some opener =>
      match st.stack with
      | top :: rest =>
        if top = opener then { st with stack := rest } else { st with ok := false }
      | [] => { st with ok := false }
    | none => st

/-- One step of the scanner. -/
def pyScanStep (st : PyScanState) (c : Char) : PyScanState :=
  match st.mode with
  | .code => pyCodeChar st c
  | .comment => if c = Char.ofNat 10 then { st with mode := .code } else st
  | .strO1 q =>
    if c = q then { st with mode := .strO2 q }
    else if c = Char.ofNat 92 then { st with mode := .str1e q }
    else if c = Char.ofNat 10 then { st with mode := .code, ok := false }
    else { st with mode := .str1 q }
  | .strO2 q =>
    if c = q then { st with mode := .str3 q 0 }
    else pyCodeChar { st with mode := .code } c
  | .str1 q =>
    if c = q then { st with mode := .code }
    else if c = Char.ofNat 92 then { st with mode := .str1e q }
    else if c = Char.ofNat 10 then { st with mode := .code, ok := false }
    else st
  | .str1e q => { st with mode := .str1 q }
  | .str3 q closes =>
    if c = q then
      if closes = 2 then { st with mode := .code }
      else { st with mode := .str3 q (closes + 1) }
    else if c = Char.ofNat 92 then { st with mode := .str3e q }
    else { st with mode := .str3 q 0 }
  | .str3e q => { st with mode := .str3 q 0 }

/-- The initial scanner state. -/
def pyScanInit : PyScanState := ⟨.code, [], true⟩

/-- Scan a character list. -/
def pyScan (st : PyScanState) (src : List Char) : PyScanState :=
  src.foldl pyScanStep st

/-- A necessary condition for a Python source file to parse: the scan
ends cleanly, outside any string, with no bracket left open. -/
def python_brackets_closed (src : String) : Bool :=
  let fin := pyScan pyScanInit src.data
  fin.ok && fin.stack.isEmpty
    && (fin.mode == PyLexMode.code || fin.mode == PyLexMode.comment)

/-- Verbatim text of `src/ansible-write.py`, characters 0 to 428. -/
def aw0 : String :=
  "import curses\nimport yaml\nimport json\nimport subprocess\nimport os\nfrom testinfra.utils.ansible_runner import AnsibleRunner\n\nclass AnsiblePlaybookBuilder:\n    def __init__(self, stdscr):\n        self.playbook = [\x7b\"hosts\": \"localhost\", \"gather_facts\": False, \"tasks\": [], \"vars\": \x7b\x7d\x7d]\n        self.inventory = \"localhost\"  # Default inventory\n        self.env_vars = \x7b\x7d\n        self.stdscr = stdscr\n        self.output_win = None\n"

/-- Verbatim text of `src/ansible-write.py`, characters 428 to 859. -/
def aw1 : String :=
  "        self.playbook_win = None\n        self.input_win = None\n\n    def setup_windows(self):\n        \"\"\"Setup windows for output, playbook, and input line.\"\"\"\n        height, width = self.stdscr.getmaxyx()\n        \n        # Define window areas\n        output_width = width // 2\n        playbook_width = width - output_width - 1\n\n        # Create sub-windows\n        self.output_win = curses.newwin(height - 1, output_width, 0, 0)\n"

/-- Verbatim text of `src/ansible-write.py`, characters 859 to 1440. -/
def aw2 : String :=
  "        self.playbook_win = curses.newwin(height - 1, playbook_width, 0, output_width + 1)\n        self.input_win = curses.newwin(1, width, height - 1, 0)\n\n        # Draw separators\n        self.stdscr.vline(0, output_width, \x27|\x27, height - 1)\n\n    def get_module_options(self, module):\n        \"\"\"Retrieve available options for the specified Ansible module using ansible-doc.\"\"\"\n        try:\n            result = subprocess.run(\n                [\"ansible-doc\", \"-j\", module],\n                capture_output=True,\n                text=True,\n                check=True,\n            )\n"

/-- Verbatim text of `src/ansible-write.py`, characters 1440 to 1915. -/
def aw3 : String :=
  "            module_info = json.loads(result.stdout)\n            options = module_info[module][\"doc\"][\"options\"]\n            return options\n        except subprocess.CalledProcessError:\n            self.output_win.addstr(f\"Error: Module \x60\x7bmodule\x7d\x60 not found or \x60ansible-doc\x60 command failed.\\n\")\n            self.output_win.refresh()\n            return None\n\n    def get_user_input(self, prompt):\n        \"\"\"Display a prompt in the input window and return the user\x27s input.\"\"\"\n"

/-- Verbatim text of `src/ansible-write.py`, characters 1915 to 2328. -/
def aw4 : String :=
  "        self.input_win.clear()\n        max_width = self.input_win.getmaxyx()[1] - 1  # Get width of the input window\n        truncated_prompt = prompt[:max_width]  # Truncate prompt if it\u2019s too long\n        self.input_win.addstr(truncated_prompt)\n        self.input_win.refresh()\n        \n        curses.echo()  # Enable echo to display input characters\n        curses.curs_set(1)  # Ensure the cursor is visible\n"

/-- Verbatim text of `src/ansible-write.py`, characters 2328 to 2751. -/
def aw5 : String :=
  "        \n        input_value = self.input_win.getstr().decode(\"utf-8\").strip()\n        \n        curses.noecho()  # Disable echo after capturing input\n        curses.curs_set(0)  # Hide the cursor after input\n        \n        # Convert input value to appropriate data type\n        if input_value.lower() in [\"true\", \"false\"]:\n            return input_value.lower() == \"true\"\n        try:\n            return int(input_value)\n"

/-- Verbatim text of `src/ansible-write.py`, characters 2751 to 3175. -/
def aw6 : String :=
  "        except ValueError:\n            try:\n                return float(input_value)\n            except ValueError:\n                return input_value  # Keep as string if it can\x27t be converted\n\n    def add_task(self):\n        task_name = self.get_user_input(\"Enter task name: \")\n        if not task_name:\n            return None\n        module = self.get_user_input(\"Enter Ansible module (e.g., \x60ping\x60, \x60shell\x60, etc.): \")\n"

/-- Verbatim text of `src/ansible-write.py`, characters 3175 to 3609. -/
def aw7 : String :=
  "\n        options = self.get_module_options(module)\n        if options is None:\n            return None\n\n        # Start building the task with \x27name\x27 and module as required keys\n        task = \x7b\"name\": task_name, module: \x7b\x7d\x7d\n        self.configure_module_options(task, module, options)\n\n    def configure_module_options(self, task, module, options):\n        \"\"\"Configure options for the selected module using arrow-key navigation.\"\"\"\n"

/-- Verbatim text of `src/ansible-write.py`, characters 3609 to 4015. -/
def aw8 : String :=
  "        selected_index = 0\n        # Initialize option_values with default values, but exclude values that are \x27null\x27, \x27Not Set\x27, etc.\n        option_values = \x7b\n            opt: options[opt].get(\"default\")\n            for opt in options.keys()\n            if options[opt].get(\"default\") not in [None, \"null\", \"Null\", \"not set\", \"Not Set\"]\n        \x7d\n\n        while True:\n            self.output_win.clear()\n"

/-- Verbatim text of `src/ansible-write.py`, characters 4015 to 4431. -/
def aw9 : String :=
  "            self.output_win.addstr(f\"Configuring options for module: \x7bmodule\x7d\\n\", curses.A_BOLD)\n\n            # Display task \x27name\x27 first\n            if selected_index == 0:\n                self.output_win.addstr(\"> name: \x7b\x7d\\n\".format(task[\"name\"]), curses.A_REVERSE)\n            else:\n                self.output_win.addstr(\"  name: \x7b\x7d\\n\".format(task[\"name\"]))\n\n            # Display module name as the second item\n"

/-- Verbatim text of `src/ansible-write.py`, characters 4431 to 4851. -/
def aw10 : String :=
  "            if selected_index == 1:\n                self.output_win.addstr(\"> module: \x7b\x7d\\n\".format(module), curses.A_REVERSE)\n            else:\n                self.output_win.addstr(\"  module: \x7b\x7d\\n\".format(module))\n\n            # Display each option\n            for idx, (option, details) in enumerate(options.items(), start=2):\n                description = details.get(\"description\", [\"No description provided.\"])[0]\n"

/-- Verbatim text of `src/ansible-write.py`, characters 4851 to 5282. -/
def aw11 : String :=
  "                required = details.get(\"required\", False)\n                current_value = option_values.get(option, \"Not Set\")\n\n                option_display = f\"\x7boption\x7d: \x7bcurrent_value\x7d (Required: \x7brequired\x7d)\"\n                if idx == selected_index:\n                    self.output_win.addstr(f\"> \x7boption_display\x7d\\n\", curses.A_REVERSE)\n                else:\n                    self.output_win.addstr(f\"  \x7boption_display\x7d\\n\")\n"

/-- Verbatim text of `src/ansible-write.py`, characters 5282 to 5728. -/
def aw12 : String :=
  "\n            # Add Accept and Cancel options at the bottom\n            if selected_index == len(options) + 2:\n                self.output_win.addstr(\"> Accept\\n\", curses.A_REVERSE)\n            else:\n                self.output_win.addstr(\"  Accept\\n\")\n\n            if selected_index == len(options) + 3:\n                self.output_win.addstr(\"> Cancel\\n\", curses.A_REVERSE)\n            else:\n                self.output_win.addstr(\"  Cancel\\n\")\n"

/-- Verbatim text of `src/ansible-write.py`, characters 5728 to 6170. -/
def aw13 : String :=
  "\n            self.output_win.refresh()\n\n            # Handle key events for navigation and selection\n            key = self.stdscr.getch()\n\n            if key == curses.KEY_UP:\n                selected_index = (selected_index - 1) % (len(options) + 4)\n            elif key == curses.KEY_DOWN:\n                selected_index = (selected_index + 1) % (len(options) + 4)\n            elif key == curses.KEY_ENTER or key in [10, 13]:  # Enter key\n"

/-- Verbatim text of `src/ansible-write.py`, characters 6170 to 6624. -/
def aw14 : String :=
  "                if selected_index == 0:\n                    # Edit the task name\n                    task[\"name\"] = self.get_user_input(\"Enter task name: \")\n                elif selected_index == 1:\n                    # Edit the module name (but for now, it\u2019s fixed once selected)\n                    self.output_win.addstr(\"Module name is fixed.\\n\")\n                    self.output_win.refresh()\n                elif selected_index < len(options) + 2:\n"

/-- Verbatim text of `src/ansible-write.py`, characters 6624 to 7031. -/
def aw15 : String :=
  "                    # Edit the selected option\n                    option = list(options.keys())[selected_index - 2]\n                    value = self.get_user_input(f\"Enter value for \x7boption\x7d: \")\n                    option_values[option] = value if value else options[option].get(\"default\")\n                elif selected_index == len(options) + 2:\n                    # Accept and add the task with options\n"

/-- Verbatim text of `src/ansible-write.py`, characters 7031 to 7443. -/
def aw16 : String :=
  "                    for option, value in option_values.items():\n                        if value not in [None, \"null\", \"Null\", \"not set\", \"Not Set\"]:\n                            task[module][option] = value\n                    self.playbook[0][\"tasks\"].append(task)\n                    self.refresh_playbook_display()\n                    self.execute_playbook()  # Execute the playbook with the newly added task\n"

/-- Verbatim text of `src/ansible-write.py`, characters 7443 to 7909. -/
def aw17 : String :=
  "                    break\n                elif selected_index == len(options) + 3:\n                    # Cancel and discard the task\n                    break\n\n    def set_inventory(self):\n        \"\"\"Set the inventory for the playbook.\"\"\"\n        inventory_input = self.get_user_input(\"Enter inventory (comma-separated hosts or inventory name): \")\n        if \x27,\x27 in inventory_input:\n            self.inventory = [host.strip() for host in inventory_input.split(\x27,\x27)]\n"

/-- Verbatim text of `src/ansible-write.py`, characters 7909 to 8339. -/
def aw18 : String :=
  "        else:\n            self.inventory = inventory_input\n\n        self.output_win.clear()\n        self.output_win.addstr(f\"Inventory set to: \x7bself.inventory\x7d\\n\")\n        self.output_win.refresh()\n\n    def execute_playbook(self):\n        \"\"\"Execute the playbook with AnsibleRunner.\"\"\"\n        runner = AnsibleRunner(\n            inventory=self.inventory if isinstance(self.inventory, str) else \x27,\x27.join(self.inventory)\n        )\n"

/-- Verbatim text of `src/ansible-write.py`, characters 8339 to 8808. -/
def aw19 : String :=
  "        \n        for task in self.playbook[0][\"tasks\"]:\n            module = list(task.keys())[1]  # First key is always \x27name\x27, second is the module name\n            result = runner.run(\n                host=self.inventory,\n                module_name=module,\n                module_args=task[module],\n                env=self.env_vars,\n            )\n            self.output_win.clear()\n            self.output_win.addstr(f\"Task \x27\x7btask[\x27name\x27]\x7d\x27 result:\\n\x7bresult\x7d\\n\")\n"

/-- Verbatim text of `src/ansible-write.py`, characters 8808 to 8989. -/
def aw20 : String :=
  "            self.output_win.refresh()\n\n    def refresh_playbook_display(self):\n        \"\"\"Display the current playbook, including task numbers.\"\"\"\n        self.playbook_win.clear()\n"

/-- Verbatim text of `src/ansible-write.py` up to (excluding) its last line. -/
def ansibleWriteBody : String := aw0 ++ (aw1 ++ (aw2 ++ (aw3 ++ (aw4 ++ (aw5 ++ (aw6 ++ (aw7 ++ (aw8 ++ (aw9 ++ (aw10 ++ (aw11 ++ (aw12 ++ (aw13 ++ (aw14 ++ (aw15 ++ (aw16 ++ (aw17 ++ (aw18 ++ (aw19 ++ (aw20))))))))))))))))))))

/-- The last line of `src/ansible-write.py` (the unterminated list comprehension of `refresh_playbook_display`). -/
def awLast : String :=
  "        tasks_display = [\x7b\"number\": i + 1, **task\x7d for i, task in enumerate(self.playbook[0][\"tasks\"]\n"

/-- The full verbatim text of `src/ansible-write.py`. -/
def ansibleWriteSrc : String := ansibleWriteBody ++ awLast

/-! ## A second load-time necessary condition: bare-colon logical lines

In grammatical Python, split a module into logical lines (a physical
newline ends a logical line only outside strings and with no bracket
open) and strip comments; a logical line whose remaining text ends in a
bare `:` can only be the header of a compound statement (`if`, `elif`,
`else`, `for`, `while`, `def`, `class`, `with`, `try`, `except`,
`finally`, `match`, `case`, `async ...`): every other statement form
puts an expression after any colon it contains.  A module with a
comment-stripped logical line that ends in `:` and does not start with
one of these keywords is rejected by CPython with a `SyntaxError`
before any code runs.  (The model assumes no backslash line
continuations in code, true of the files it is applied to.)  This is
the check that the raw YAML tail of `ansible-flag-parser-container.py`
fails — CPython reports its `SyntaxError` at the first such line,
`flags:`, line 189. -/

/-- Drop leading and trailing whitespace from a character list. -/
def stripWsChars (cs : List Char) : List Char :=
  ((cs.dropWhile Char.isWhitespace).reverse.dropWhile Char.isWhitespace).reverse

/-- Characters of a Python identifier or keyword. -/
def pyIdentChar (c : Char) : Bool :=
  c.isAlphanum || c = Char.ofNat 95

/-- The keywords that may head a colon-terminated compound-statement
line. -/
def pyCompoundKeywords : List (List Char) :=
  ["if", "elif", "else", "for", "while", "def", "class", "with",
   "try", "except", "finally", "match", "case", "async"].map String.data

/-- A comment-stripped logical line that ends in a bare `:` without
being a compound-statement header — impossible in a syntactically valid
Python module. -/
def pyBareColonLine (line : List Char) : Bool :=
  let l := stripWsChars line
  match l.getLast? with
  | some c =>
    if c = Char.ofNat 58 then
      !(pyCompoundKeywords.contains (l.takeWhile pyIdentChar))
    else false
  | none => false

/-- State of the logical-line scanner: the underlying lexer state, the
characters of the current logical line so far (reversed, comments
excluded), and the number of bare-colon lines seen. -/
structure PyLineScan where
  scan : PyScanState
  cur : List Char
  bad : Nat
deriving DecidableEq, Repr

/-- The initial logical-line scanner state. -/
def pyLineInit : PyLineScan := ⟨pyScanInit, [], 0⟩

/-- One step of the logical-line scanner: a newline outside strings with
no bracket open ends the logical line (and tests it); comment characters
(and the `#` itself) are excluded from the line; everything else is
accumulated. -/
def pyLineStep (st : PyLineScan) (c : Char) : PyLineScan :=
  let scan2 := pyScanStep st.scan c
  if c = Char.ofNat 10 then
    match st.scan.mode, st.scan.stack with
    | .code, [] =>
      ⟨scan2, [], st.bad + (if pyBareColonLine st.cur.reverse then 1 else 0)⟩
    | .comment, [] =>
      ⟨scan2, [], st.bad + (if pyBareColonLine st.cur.reverse then 1 else 0)⟩
    | _, _ => ⟨scan2, c :: st.cur, st.bad⟩
  else
    match st.scan.mode with
    | .comment => ⟨scan2, st.cur, st.bad⟩
    | .code =>
      if c = Char.ofNat 35 then ⟨scan2, st.cur, st.bad⟩
      else ⟨scan2, c :: st.cur, st.bad⟩
    | _ => ⟨scan2, c :: st.cur, st.bad⟩

/-- Run the logical-line scanner over a character list. -/
def pyLineRun (st : PyLineScan) (src : List Char) : PyLineScan :=
  src.foldl pyLineStep st

/-- The number of bare-colon logical lines of a source file (the
unterminated final line, if any, included).  A non-zero count means the
file is not a syntactically valid Python module and dies with a
`SyntaxError` at load time, before any of its code runs. -/
def pyBareColonCount (src : String) : Nat :=
  let fin := pyLineRun pyLineInit src.data
  fin.bad + (if pyBareColonLine fin.cur.reverse then 1 else 0)

/-! ## Lemmas and theorems -/

/-! ## Theorems for C1 and C2 -/

/-- **C1.** The displayed job list is a permutation of the fetched job
list, and on any two adjacent entries of the displayed list the integer
sort key (0 when `id` is missing or not convertible to `int`) of the
earlier entry is ≥ that of the later entry. -/
theorem C1_jobs_sorted_desc_perm (jobs : List Job) :
    (jobs_sorted jobs).Perm jobs ∧
      List.Chain' (fun a b => job_sort_key b ≤ job_sort_key a) (jobs_sorted jobs) := by
  constructor
  · exact List.mergeSort_perm jobs _
  · have h := @List.sorted_mergeSort Job
      (fun a b : Job => decide (job_sort_key b ≤ job_sort_key a))
      (fun a b c hab hbc => by
        simp only [decide_eq_true_eq] at *
        exact le_trans hbc hab)
      (fun a b => by
        simp only [Bool.or_eq_true, decide_eq_true_eq]
        exact le_total (job_sort_key b) (job_sort_key a))
      jobs
    have h' : List.Pairwise (fun a b => job_sort_key b ≤ job_sort_key a)
        (jobs_sorted jobs) := by
      refine h.imp ?_
      intro a b hab
      simpa using hab
    exact h'.chain'

/-- **C2.** `classify_status_text` is total with range
`{good, warn, bad, unknown}`; it sends `None` to `"unknown"`, returns
`"good"` exactly on the nine fixed lowercased literals, otherwise
`"warn"` exactly when a warn substring occurs, otherwise `"bad"` exactly
when a bad substring occurs, and `"unknown"` otherwise. -/
theorem C2_classify_status_text_spec :
    (∀ st, classify_status_text st ∈ (["good", "warn", "bad", "unknown"] : List String)) ∧
    classify_status_text none = "unknown" ∧
    ∀ s : String,
      (classify_status_text (some s) = "good" ↔ goodStatuses.contains s.toLower = true) ∧
      (classify_status_text (some s) = "warn" ↔
        goodStatuses.contains s.toLower = false ∧
          warnWords.any (fun w => strContainsSub s.toLower w) = true) ∧
      (classify_status_text (some s) = "bad" ↔
        goodStatuses.contains s.toLower = false ∧
          warnWords.any (fun w => strContainsSub s.toLower w) = false ∧
          badWords.any (fun w => strContainsSub s.toLower w) = true) ∧
      (classify_status_text (some s) = "unknown" ↔
        goodStatuses.contains s.toLower = false ∧
          warnWords.any (fun w => strContainsSub s.toLower w) = false ∧
          badWords.any (fun w => strContainsSub s.toLower w) = false) := by
  refine ⟨?_, rfl, ?_⟩
  · intro st
    match st with
    | none => simp [classify_status_text]
    | some s =>
      unfold classify_status_text
      dsimp only
      split
      · simp
      · split
        · simp
        · split <;> simp
  · intro s
    unfold classify_status_text
    dsimp only
    rcases hg : goodStatuses.contains s.toLower with _ | _
    · rcases hw : warnWords.any (fun w => strContainsSub s.toLower w) with _ | _
      · rcases hb : badWords.any (fun w => strContainsSub s.toLower w) with _ | _
        · simp
        · simp
      · simp
    · simp

/-- **C3, counterexample.** The claim that every such pool has a worker
count between two and five fails on the code: `gateway-monitor.py`
invoked with the single endpoint `https://gw1.example.com` (a legal
invocation, since `endpoints` is `nargs="+"`) builds its pool with
`max_workers = 1`. -/
theorem C3_counterexample :
    gatewayMonitorMaxWorkers ["https://gw1.example.com"] = 1 ∧
      ¬ (2 ≤ gatewayMonitorMaxWorkers ["https://gw1.example.com"] ∧
          gatewayMonitorMaxWorkers ["https://gw1.example.com"] ≤ 5) := by
  constructor
  · rfl
  · intro h
    simp [gatewayMonitorMaxWorkers] at h

/-- **C3, amended.** `aap-monitor`'s pool always has exactly 2 workers
(so it does lie in [2,5]); `gateway-monitor`'s pool has exactly
`len(endpoints)` workers, which lies in [2,5] precisely when the
invocation names between two and five endpoints. -/
theorem C3_pool_sizes (endpoints : List String) :
    aapMonitorMaxWorkers = 2 ∧
      (2 ≤ aapMonitorMaxWorkers ∧ aapMonitorMaxWorkers ≤ 5) ∧
      gatewayMonitorMaxWorkers endpoints = endpoints.length ∧
      ((2 ≤ gatewayMonitorMaxWorkers endpoints ∧
          gatewayMonitorMaxWorkers endpoints ≤ 5) ↔
        2 ≤ endpoints.length ∧ endpoints.length ≤ 5) := by
  refine ⟨rfl, ⟨by decide, by decide⟩, rfl, Iff.rfl⟩

/-- **C7, counterexample.** The claim says a job in status `new` is
shown with the in-progress marker ⏳; the code shows it with ❌. -/
theorem C7_counterexample :
    job_marker "new" = "❌" ∧ job_marker "new" ≠ "⏳" := by
  constructor <;> decide

/-- **C7, amended.** The marker is ⏳ exactly for the statuses
`running`, `pending`, `waiting`; ✅ exactly for `successful`; and ❌ for
every other status — including `new`, `failed`, `error` and
`canceled`. -/
theorem C7_job_marker_spec :
    (∀ status : String,
      (job_marker status = "⏳" ↔
          status ∈ (["running", "pending", "waiting"] : List String)) ∧
      (job_marker status = "✅" ↔
          status ∉ (["running", "pending", "waiting"] : List String) ∧
            status = "successful") ∧
      (job_marker status = "❌" ↔
          status ∉ (["running", "pending", "waiting"] : List String) ∧
            status ≠ "successful")) ∧
    job_marker "new" = "❌" ∧ job_marker "failed" = "❌" ∧
    job_marker "error" = "❌" ∧ job_marker "canceled" = "❌" ∧
    job_marker "successful" = "✅" ∧ job_marker "running" = "⏳" ∧
    job_marker "pending" = "⏳" ∧ job_marker "waiting" = "⏳" := by
  refine ⟨?_, by decide, by decide, by decide, by decide, by decide, by decide, by decide, by decide⟩
  intro status
  unfold job_marker
  split_ifs with h1 h2
  · refine ⟨by simp [h1], ?_, ?_⟩
    · constructor
      · intro h; exact absurd h (by decide)
      · rintro ⟨hn, -⟩; exact absurd h1 hn
    · constructor
      · intro h; exact absurd h (by decide)
      · rintro ⟨hn, -⟩; exact absurd h1 hn
  · refine ⟨?_, by simp [h1, h2], ?_⟩
    · constructor
      · intro h; exact absurd h (by decide)
      · intro hmem; exact absurd hmem h1
    · constructor
      · intro h; exact absurd h (by decide)
      · rintro ⟨-, hne⟩; exact absurd h2 hne
  · refine ⟨?_, ?_, by simp [h1, h2]⟩
    · constructor
      · intro h; exact absurd h (by decide)
      · intro hmem; exact absurd hmem h1
    · constructor
      · intro h; exact absurd h (by decide)
      · rintro ⟨-, heq⟩; exact absurd heq h2

/-- **C4.** `_refresh_job_output` preserves the cache invariant, and an
incremental call (`full = False`) whose fetched text is strictly longer
than the cached length appends to the widget exactly the suffix of the
fetched text starting at the previous `last_stdout_len` (and re-caches
the fetched text), while a fetched text no longer than the cached length
changes neither the cache values nor the widget. -/
theorem C4_refresh_job_output_incremental (js : Option JobStateS)
    (fetched : Except String String) (full : Bool) (out : String)
    (hinv : JSInv js) :
    JSInv (refresh_job_output js fetched full out).1 ∧
    ∀ txt : String, fetched = .ok txt → full = false →
      (((js.getD JobStateS.init).last_stdout_len < txt.length →
        (refresh_job_output js fetched full out).2
            = out ++ txt.drop (js.getD JobStateS.init).last_stdout_len ∧
        (refresh_job_output js fetched full out).1 = some ⟨txt.length, txt⟩) ∧
      (txt.length ≤ (js.getD JobStateS.init).last_stdout_len →
        (refresh_job_output js fetched full out).2 = out ∧
        (refresh_job_output js fetched full out).1 = some (js.getD JobStateS.init))) := by
  constructor
  · match fetched with
    | .error e =>
      unfold refresh_job_output
      cases full <;> simpa using hinv
    | .ok txt =>
      unfold refresh_job_output
      dsimp only
      cases full with
      | true => simp [JSInv]
      | false =>
        simp only [Bool.false_eq_true, if_false]
        by_cases hlt : (js.getD JobStateS.init).last_stdout_len < txt.length
        · simp [hlt, JSInv]
        · simp only [hlt, if_false]
          match js with
          | none => simp [JSInv, JobStateS.init]
          | some s => simpa [JSInv] using hinv
  · intro txt hfetch hfull
    subst hfetch; subst hfull
    constructor
    · intro hlt
      unfold refresh_job_output
      simp [hlt]
    · intro hle
      unfold refresh_job_output
      simp [Nat.not_lt_of_le hle]

/-- Witness for C4: a concrete incremental call.  The cached state holds
2 characters of a 5-character fetched text, so exactly `"cde"` is
appended and the cache is advanced to length 5. -/
theorem C4_refresh_witness :
    JSInv (refresh_job_output (some ⟨2, "ab"⟩) (Except.ok "abcde") false "ab").1 ∧
      (refresh_job_output (some ⟨2, "ab"⟩) (Except.ok "abcde") false "ab").2
        = "ab" ++ "abcde".drop 2 ∧
      (refresh_job_output (some ⟨2, "ab"⟩) (Except.ok "abcde") false "ab").1
        = some ⟨5, "abcde"⟩ := by
  have h := C4_refresh_job_output_incremental (some ⟨2, "ab"⟩) (Except.ok "abcde")
    false "ab" (by decide)
  have h2 := (h.2 "abcde" rfl rfl).1 (by decide)
  exact ⟨h.1, h2.1, h2.2⟩

/-- **C9.** In check mode the module issues no PATCH (so every host's
`enabled` flag is unchanged under `apply_patches`), and it reports
`changed = true` exactly when some matched (de-duplicated) host's
`enabled` differs from the requested value or is missing, with
`changed_count` the number of such hosts and `already_in_state` the
number of hosts already in the requested state. -/
theorem C9_check_mode_frame (matched_hosts : List CHost) (desired : Bool)
    (check_mode : Bool) (hcm : check_mode = true) :
    (hosts_enabled_run check_mode matched_hosts desired).patches = [] ∧
    (∀ st : ControllerState,
      apply_patches st (hosts_enabled_run check_mode matched_hosts desired).patches = st) ∧
    ((hosts_enabled_run check_mode matched_hosts desired).changed = true ↔
      ∃ h ∈ dedup_by_id matched_hosts, h.enabled ≠ some desired) ∧
    (hosts_enabled_run check_mode matched_hosts desired).changed_count
      = ((dedup_by_id matched_hosts).filter (fun h => !(h.enabled == some desired))).length ∧
    (hosts_enabled_run check_mode matched_hosts desired).already_in_state
      = ((dedup_by_id matched_hosts).filter (fun h => h.enabled == some desired)).length := by
  subst hcm
  refine ⟨rfl, fun st => rfl, ?_, rfl, rfl⟩
  unfold hosts_enabled_run
  dsimp only
  rw [if_pos rfl]
  dsimp only
  rw [decide_eq_true_eq]
  rw [List.length_pos_iff_exists_mem]
  constructor
  · rintro ⟨h, hh⟩
    rw [List.mem_filter] at hh
    refine ⟨h, hh.1, ?_⟩
    intro heq
    rw [heq] at hh
    simp at hh
  · rintro ⟨h, hmem, hne⟩
    refine ⟨h, ?_⟩
    rw [List.mem_filter]
    refine ⟨hmem, ?_⟩
    simp [hne]

/-- Witness for C9: two matched hosts, one already enabled and one
disabled, requested state `enabled = true`, in check mode: no PATCH,
`changed`, one host to change and one already in state. -/
theorem C9_check_mode_witness :
    (hosts_enabled_run true
        [⟨1, "a", some true⟩, ⟨2, "b", some false⟩] true).patches = [] ∧
      (hosts_enabled_run true
        [⟨1, "a", some true⟩, ⟨2, "b", some false⟩] true).changed = true ∧
      (hosts_enabled_run true
        [⟨1, "a", some true⟩, ⟨2, "b", some false⟩] true).changed_count = 1 ∧
      (hosts_enabled_run true
        [⟨1, "a", some true⟩, ⟨2, "b", some false⟩] true).already_in_state = 1 := by
  have h := C9_check_mode_frame [⟨1, "a", some true⟩, ⟨2, "b", some false⟩] true true rfl
  refine ⟨h.1, ?_, ?_, ?_⟩
  · rw [h.2.2.1]
    exact ⟨⟨2, "b", some false⟩, by decide, by decide⟩
  · rw [h.2.2.2.1]; decide
  · rw [h.2.2.2.2]; decide

/-- Folding one env file over a dict: where the file defines the key its
own (last) value wins, elsewhere the incoming dict survives. -/
theorem envFileFold_lookup :
    ∀ (lines : List String) (d : String → Option String) (k : String),
      envFileFold d lines k = (fileDict lines k).orElse (fun _ => d k) := by
  intro lines
  induction lines with
  | nil => intro d k; rfl
  | cons line ls ih =>
    intro d k
    show envFileFold _ ls k = _
    rw [ih]
    have hfd : fileDict (line :: ls) k
        = (fileDict ls k).orElse
            (fun _ =>
              (match parse_env_line line with
                | some kv => fun k => if k = kv.1 then some kv.2 else (fun _ => none) k
                | none => fun _ : String => (none : Option String)) k) := by
      show envFileFold _ ls k = _
      rw [ih]
    rw [hfd]
    cases hls : fileDict ls k with
    | some v => rfl
    | none =>
      show (match parse_env_line line with
            | some kv => fun k => if k = kv.1 then some kv.2 else d k
            | none => d) k = _
      cases hp : parse_env_line line with
      | none => rfl
      | some kv =>
        by_cases hk : k = kv.1
        · simp [hk, Option.orElse]
        · simp [hk, Option.orElse]

/-- `load_env_files` looks up to the last listed file that defines the
key. -/
theorem load_env_files_fold :
    ∀ (fs : List (List String)) (d : String → Option String) (k : String),
      fs.foldl envFileFold d k
        = (fs.reverse.findSome? (fun f => fileDict f k)).orElse (fun _ => d k) := by
  intro fs
  induction fs with
  | nil => intro d k; rfl
  | cons f fs ih =>
    intro d k
    rw [List.foldl_cons, ih, List.reverse_cons, List.findSome?_append]
    rw [envFileFold_lookup f d k]
    cases hr : fs.reverse.findSome? (fun f => fileDict f k) with
    | some v => simp [Option.orElse]
    | none =>
      cases hf : fileDict f k with
      | some v => simp [Option.orElse, List.findSome?, hf]
      | none => simp [Option.orElse, List.findSome?, hf]

/-- `load_env_files` as lookup. -/
theorem load_env_files_lookup (env_files : List (List String)) (k : String) :
    load_env_files env_files k
      = env_files.reverse.findSome? (fun f => fileDict f k) := by
  unfold load_env_files
  rw [load_env_files_fold]
  cases env_files.reverse.findSome? fun f => fileDict f k with
  | none => rfl
  | some v => rfl

/-- `dictUpdate` looks up to the updating items first, the incoming dict
second. -/
theorem dictUpdate_lookup :
    ∀ (kvs : List (String × String)) (d : String → Option String) (k : String),
      dictUpdate d kvs k = (pyDict kvs k).orElse (fun _ => d k) := by
  intro kvs
  induction kvs with
  | nil => intro d k; rfl
  | cons kv kvs ih =>
    intro d k
    show dictUpdate _ kvs k = _
    rw [ih]
    have hpd : pyDict (kv :: kvs) k
        = (pyDict kvs k).orElse
            (fun _ => if k = kv.1 then some kv.2 else (none : Option String)) := by
      show dictUpdate _ kvs k = _
      rw [ih]
    rw [hpd]
    cases hks : pyDict kvs k with
    | some v => rfl
    | none =>
      by_cases hk : k = kv.1
      · simp [hk, Option.orElse]
      · simp [hk, Option.orElse]

/-- **C10.** Compose precedence of the merged environment: a key the
inline `environment` defines gets the inline value, whatever the env
files say; a key the inline `environment` does not define gets the value
of the last listed env file that defines it (`findSome?` over the
reversed file list), env files being processed in listed order before
the inline section. -/
theorem C10_compose_env_precedence (env_files : List (List String))
    (inlineEnv : List (String × String)) (k : String) :
    (∀ v, pyDict inlineEnv k = some v →
      handle_environment_merged env_files inlineEnv k = some v) ∧
    (pyDict inlineEnv k = none →
      handle_environment_merged env_files inlineEnv k
        = env_files.reverse.findSome? (fun f => fileDict f k)) := by
  have hbase :
      (if env_files.isEmpty then (fun _ : String => (none : Option String))
        else fun k => (load_env_files env_files k).orElse (fun _ => none)) k
      = load_env_files env_files k := by
    cases env_files with
    | nil => rfl
    | cons f fs =>
      rw [if_neg (by simp)]
      cases h : load_env_files (f :: fs) k with
      | none => simp [h, Option.orElse]
      | some v => simp [h, Option.orElse]
  have hmerged : handle_environment_merged env_files inlineEnv k
      = (pyDict inlineEnv k).orElse (fun _ => load_env_files env_files k) := by
    unfold handle_environment_merged
    rw [dictUpdate_lookup]
    cases hpy : pyDict inlineEnv k with
    | none => simpa [Option.orElse] using hbase
    | some v => rfl
  constructor
  · intro v hv
    rw [hmerged, hv]
    rfl
  · intro hnone
    rw [hmerged, hnone, load_env_files_lookup]
    cases env_files.reverse.findSome? fun f => fileDict f k with
    | none => rfl
    | some v => rfl

/-- Witness for C10: the key `A` is set by the first env file and by the
inline environment (the inline value `9` wins); the key `B` is set by
both env files and not inline (the last file value `3` wins). -/
theorem C10_compose_env_witness :
    handle_environment_merged [["A=1", "B=2"], ["B=3"]] [("A", "9")] "A" = some "9" ∧
      handle_environment_merged [["A=1", "B=2"], ["B=3"]] [("A", "9")] "B" = some "3" := by
  constructor
  · exact (C10_compose_env_precedence [["A=1", "B=2"], ["B=3"]] [("A", "9")] "A").1
      "9" (by decide)
  · have h := (C10_compose_env_precedence [["A=1", "B=2"], ["B=3"]] [("A", "9")] "B").2
      (by decide)
    rw [h]
    decide

/-- **C8** fails on the code: on `s = "???"` the encoder produces
`"Pz8_"` (the URL-safe alphabet), and `urlsafe_b64decode` — which calls
`base64.b64decode`, the standard-alphabet decoder — discards the `_`,
is left with three data characters, and raises
`binascii.Error("Incorrect padding")` instead of returning
`b"???"`. -/
theorem C8_roundtrip_failing_input :
    urlsafe_b64encode "???" = "Pz8_" ∧
      urlsafe_b64decode (urlsafe_b64encode "???") = .error "Incorrect padding" ∧
      urlsafe_b64decode (urlsafe_b64encode "???") ≠ .ok (utf8Encode "???") := by
  refine ⟨rfl, rfl, ?_⟩
  intro h
  rw [show urlsafe_b64decode (urlsafe_b64encode "???")
      = Except.error "Incorrect padding" from rfl] at h
  cases h

/-! ## Occurrence search: append decomposition lemmas -/

theorem take_take_append (n : Nat) (A B : List Char) :
    (A ++ B.take n).take n = (A ++ B).take n := by
  rw [List.take_append_eq_append_take, List.take_append_eq_append_take, List.take_take]
  congr 1
  exact congrArg B.take (Nat.min_eq_left (Nat.sub_le n A.length))

theorem isPrefixOf_eq_of_take_eq {pat s t : List Char}
    (h : s.take pat.length = t.take pat.length) :
    pat.isPrefixOf s = pat.isPrefixOf t := by
  have hiff : (pat.isPrefixOf s = true) ↔ (pat.isPrefixOf t = true) := by
    rw [List.isPrefixOf_iff_prefix, List.isPrefixOf_iff_prefix,
      List.prefix_iff_eq_take, List.prefix_iff_eq_take, h]
  cases hs : pat.isPrefixOf s with
  | true => exact (hiff.mp hs).symm
  | false =>
    cases ht : pat.isPrefixOf t with
    | true => exact absurd (hiff.mpr ht) (by simp [hs])
    | false => rfl

theorem isPrefixOf_cons_append_window (pat : List Char) (hpat : pat ≠ [])
    (x : Char) (A B : List Char) :
    pat.isPrefixOf (x :: (A ++ B.take (pat.length - 1)))
      = pat.isPrefixOf (x :: (A ++ B)) := by
  apply isPrefixOf_eq_of_take_eq
  cases hl : pat.length with
  | zero => exact absurd (List.length_eq_zero.mp hl) hpat
  | succ n =>
    simp only [Nat.add_sub_cancel, List.take_succ_cons]
    exact congrArg (fun t => x :: t) (take_take_append n A B)

theorem findSub_append_none (pat : List Char) (hpat : pat ≠ []) :
    ∀ (A B : List Char),
      findSub pat (A ++ B.take (pat.length - 1)) = none →
      findSub pat (A ++ B) = (findSub pat B).map (A.length + ·) := by
  intro A
  induction A with
  | nil =>
    intro B _
    simp only [List.nil_append, List.length_nil]
    cases findSub pat B with
    | none => rfl
    | some i => simp
  | cons a A ih =>
    intro B h
    rw [List.cons_append] at h
    rw [List.cons_append]
    cases hp : pat.isPrefixOf (a :: (A ++ B.take (pat.length - 1))) with
    | true => rw [findSub, if_pos hp] at h; cases h
    | false =>
      rw [findSub, if_neg (by simp [hp])] at h
      have hinner : findSub pat (A ++ B.take (pat.length - 1)) = none := by
        cases hin : findSub pat (A ++ B.take (pat.length - 1)) with
        | none => rfl
        | some i => rw [hin] at h; cases h
      have hp' : pat.isPrefixOf (a :: (A ++ B)) = false := by
        rw [← isPrefixOf_cons_append_window pat hpat a A B]
        exact hp
      rw [findSub, if_neg (by simp [hp']), ih B hinner, Option.map_map]
      cases findSub pat B with
      | none => rfl
      | some i =>
        simp only [Option.map_some', Function.comp]
        congr 1
        simp [List.length_cons]
        omega

theorem findSub_some_prefix (pat : List Char) :
    ∀ (s : List Char) (i : Nat), findSub pat s = some i → pat <+: s.drop i := by
  intro s
  induction s with
  | nil =>
    intro i h
    rw [findSub] at h
    by_cases hp : pat.isEmpty
    · rw [if_pos hp] at h
      cases h
      simp [List.isEmpty_iff.mp hp]
    · rw [if_neg hp] at h; cases h
  | cons c rest ih =>
    intro i h
    cases hp : pat.isPrefixOf (c :: rest) with
    | true =>
      rw [findSub, if_pos hp] at h
      cases h
      simpa using List.isPrefixOf_iff_prefix.mp hp
    | false =>
      rw [findSub, if_neg (by simp [hp])] at h
      cases hin : findSub pat rest with
      | none => rw [hin] at h; cases h
      | some j =>
        rw [hin] at h
        simp only [Option.map_some'] at h
        cases h
        have := ih j hin
        simpa [List.drop_succ_cons] using this

theorem findSub_append_some (pat : List Char) (hpat : pat ≠ []) :
    ∀ (A B : List Char) (i : Nat),
      findSub pat (A ++ B.take (pat.length - 1)) = some i →
      findSub pat (A ++ B) = some i := by
  intro A
  induction A with
  | nil =>
    intro B i h
    exfalso
    have hpre := findSub_some_prefix pat _ i h
    have hlen := hpre.length_le
    rw [List.nil_append] at hlen
    have h1 : ((B.take (pat.length - 1)).drop i).length ≤ pat.length - 1 := by
      rw [List.length_drop, List.length_take]
      omega
    have hne : 0 < pat.length := List.length_pos.mpr hpat
    omega
  | cons a A ih =>
    intro B i h
    rw [List.cons_append] at h
    rw [List.cons_append]
    cases hp : pat.isPrefixOf (a :: (A ++ B.take (pat.length - 1))) with
    | true =>
      rw [findSub, if_pos hp] at h
      have hp' : pat.isPrefixOf (a :: (A ++ B)) = true := by
        rw [← isPrefixOf_cons_append_window pat hpat a A B]
        exact hp
      rw [findSub, if_pos hp']
      exact h
    | false =>
      rw [findSub, if_neg (by simp [hp])] at h
      cases hin : findSub pat (A ++ B.take (pat.length - 1)) with
      | none => rw [hin] at h; cases h
      | some j =>
        rw [hin] at h
        simp only [Option.map_some'] at h
        have hp' : pat.isPrefixOf (a :: (A ++ B)) = false := by
          rw [← isPrefixOf_cons_append_window pat hpat a A B]
          exact hp
        rw [findSub, if_neg (by simp [hp']), ih B j hin]
        simpa using h

/-- Chunk decomposition of the embedded `ansible-flag-parser.py` text. -/
theorem flagParserSrc_data :
    ansibleFlagParserSrc.data = flagP0.data ++ (flagP1.data ++ (flagP2.data ++ (flagP3.data ++ (flagP4.data)))) := by
  simp only [ansibleFlagParserSrc, String.data_append]

/-- Chunk decomposition of the embedded `ansible-flag-parser-container.py` text. -/
theorem containerSrc_data :
    ansibleFlagParserContainerSrc.data = ctA0.data ++ (ctA1.data ++ (ctA2.data ++ (ctA3.data ++ (ctA4.data ++ (ctA5.data ++ (ctA6.data ++ (ctA7.data ++ (ctA8.data ++ (ctA9.data ++ (ctA10.data ++ (ctA11.data ++ (ctA12.data ++ (ctB0.data ++ (ctB1.data)))))))))))))) := by
  simp only [ansibleFlagParserContainerSrc, String.data_append]

/-- `ansible-flag-parser.py` nowhere contains the start marker followed by a newline. -/
theorem flagParser_no_metaStart : findSub metaStart ansibleFlagParserSrc.data = none := by
  have mne : metaStart ≠ [] := by decide
  have t4 : findSub metaStart flagP4.data = none := by rfl
  have h3 : findSub metaStart (flagP3.data ++ (flagP4.data).take (metaStart.length - 1)) = none := by rfl
  have t3 : findSub metaStart (flagP3.data ++ (flagP4.data)) = none := by
    rw [findSub_append_none metaStart mne flagP3.data (flagP4.data) h3, t4]
    rfl
  have h2 : findSub metaStart (flagP2.data ++ (flagP3.data ++ (flagP4.data)).take (metaStart.length - 1)) = none := by rfl
  have t2 : findSub metaStart (flagP2.data ++ (flagP3.data ++ (flagP4.data))) = none := by
    rw [findSub_append_none metaStart mne flagP2.data (flagP3.data ++ (flagP4.data)) h2, t3]
    rfl
  have h1 : findSub metaStart (flagP1.data ++ (flagP2.data ++ (flagP3.data ++ (flagP4.data))).take (metaStart.length - 1)) = none := by rfl
  have t1 : findSub metaStart (flagP1.data ++ (flagP2.data ++ (flagP3.data ++ (flagP4.data)))) = none := by
    rw [findSub_append_none metaStart mne flagP1.data (flagP2.data ++ (flagP3.data ++ (flagP4.data))) h1, t2]
    rfl
  have h0 : findSub metaStart (flagP0.data ++ (flagP1.data ++ (flagP2.data ++ (flagP3.data ++ (flagP4.data)))).take (metaStart.length - 1)) = none := by rfl
  have t0 : findSub metaStart (flagP0.data ++ (flagP1.data ++ (flagP2.data ++ (flagP3.data ++ (flagP4.data))))) = none := by
    rw [findSub_append_none metaStart mne flagP0.data (flagP1.data ++ (flagP2.data ++ (flagP3.data ++ (flagP4.data)))) h0, t1]
    rfl
  rw [flagParserSrc_data]
  exact t0

/-- The leftmost occurrence of the start marker in `ansible-flag-parser-container.py` is at character 7386 (the commented `# --- METADATA ---` line near the end of the file). -/
theorem container_metaStart_at : findSub metaStart ansibleFlagParserContainerSrc.data = some 7386 := by
  have mne : metaStart ≠ [] := by decide
  have hb : findSub metaStart (ctA12.data ++ (ctB0.data ++ (ctB1.data)).take (metaStart.length - 1)) = some 186 := by rfl
  have t12 : findSub metaStart (ctA12.data ++ (ctB0.data ++ (ctB1.data))) = some 186 :=
    findSub_append_some metaStart mne ctA12.data (ctB0.data ++ (ctB1.data)) 186 hb
  have h11 : findSub metaStart (ctA11.data ++ (ctA12.data ++ (ctB0.data ++ (ctB1.data))).take (metaStart.length - 1)) = none := by rfl
  have t11 : findSub metaStart (ctA11.data ++ (ctA12.data ++ (ctB0.data ++ (ctB1.data)))) = some 786 := by
    rw [findSub_append_none metaStart mne ctA11.data (ctA12.data ++ (ctB0.data ++ (ctB1.data))) h11, t12]
    rfl
  have h10 : findSub metaStart (ctA10.data ++ (ctA11.data ++ (ctA12.data ++ (ctB0.data ++ (ctB1.data)))).take (metaStart.length - 1)) = none := by rfl
  have t10 : findSub metaStart (ctA10.data ++ (ctA11.data ++ (ctA12.data ++ (ctB0.data ++ (ctB1.data))))) = some 1386 := by
    rw [findSub_append_none metaStart mne ctA10.data (ctA11.data ++ (ctA12.data ++ (ctB0.data ++ (ctB1.data)))) h10, t11]
    rfl
  have h9 : findSub metaStart (ctA9.data ++ (ctA10.data ++ (ctA11.data ++ (ctA12.data ++ (ctB0.data ++ (ctB1.data))))).take (metaStart.length - 1)) = none := by rfl
  have t9 : findSub metaStart (ctA9.data ++ (ctA10.data ++ (ctA11.data ++ (ctA12.data ++ (ctB0.data ++ (ctB1.data)))))) = some 1986 := by
    rw [findSub_append_none metaStart mne ctA9.data (ctA10.data ++ (ctA11.data ++ (ctA12.data ++ (ctB0.data ++ (ctB1.data))))) h9, t10]
    rfl
  have h8 : findSub metaStart (ctA8.data ++ (ctA9.data ++ (ctA10.data ++ (ctA11.data ++ (ctA12.data ++ (ctB0.data ++ (ctB1.data)))))).take (metaStart.length - 1)) = none := by rfl
  have t8 : findSub metaStart (ctA8.data ++ (ctA9.data ++ (ctA10.data ++ (ctA11.data ++ (ctA12.data ++ (ctB0.data ++ (ctB1.data))))))) = some 2586 := by
    rw [findSub_append_none metaStart mne ctA8.data (ctA9.data ++ (ctA10.data ++ (ctA11.data ++ (ctA12.data ++ (ctB0.data ++ (ctB1.data)))))) h8, t9]
    rfl
  have h7 : findSub metaStart (ctA7.data ++ (ctA8.data ++ (ctA9.data ++ (ctA10.data ++ (ctA11.data ++ (ctA12.data ++ (ctB0.data ++ (ctB1.data))))))).take (metaStart.length - 1)) = none := by rfl
  have t7 : findSub metaStart (ctA7.data ++ (ctA8.data ++ (ctA9.data ++ (ctA10.data ++ (ctA11.data ++ (ctA12.data ++ (ctB0.data ++ (ctB1.data)))))))) = some 3186 := by
    rw [findSub_append_none metaStart mne ctA7.data (ctA8.data ++ (ctA9.data ++ (ctA10.data ++ (ctA11.data ++ (ctA12.data ++ (ctB0.data ++ (ctB1.data))))))) h7, t8]
    rfl
  have h6 : findSub metaStart (ctA6.data ++ (ctA7.data ++ (ctA8.data ++ (ctA9.data ++ (ctA10.data ++ (ctA11.data ++ (ctA12.data ++ (ctB0.data ++ (ctB1.data)))))))).take (metaStart.length - 1)) = none := by rfl
  have t6 : findSub metaStart (ctA6.data ++ (ctA7.data ++ (ctA8.data ++ (ctA9.data ++ (ctA10.data ++ (ctA11.data ++ (ctA12.data ++ (ctB0.data ++ (ctB1.data))))))))) = some 3786 := by
    rw [findSub_append_none metaStart mne ctA6.data (ctA7.data ++ (ctA8.data ++ (ctA9.data ++ (ctA10.data ++ (ctA11.data ++ (ctA12.data ++ (ctB0.data ++ (ctB1.data)))))))) h6, t7]
    rfl
  have h5 : findSub metaStart (ctA5.data ++ (ctA6.data ++ (ctA7.data ++ (ctA8.data ++ (ctA9.data ++ (ctA10.data ++ (ctA11.data ++ (ctA12.data ++ (ctB0.data ++ (ctB1.data))))))))).take (metaStart.length - 1)) = none := by rfl
  have t5 : findSub metaStart (ctA5.data ++ (ctA6.data ++ (ctA7.data ++ (ctA8.data ++ (ctA9.data ++ (ctA10.data ++ (ctA11.data ++ (ctA12.data ++ (ctB0.data ++ (ctB1.data)))))))))) = some 4386 := by
    rw [findSub_append_none metaStart mne ctA5.data (ctA6.data ++ (ctA7.data ++ (ctA8.data ++ (ctA9.data ++ (ctA10.data ++ (ctA11.data ++ (ctA12.data ++ (ctB0.data ++ (ctB1.data))))))))) h5, t6]
    rfl
  have h4 : findSub metaStart (ctA4.data ++ (ctA5.data ++ (ctA6.data ++ (ctA7.data ++ (ctA8.data ++ (ctA9.data ++ (ctA10.data ++ (ctA11.data ++ (ctA12.data ++ (ctB0.data ++ (ctB1.data)))))))))).take (metaStart.length - 1)) = none := by rfl
  have t4 : findSub metaStart (ctA4.data ++ (ctA5.data ++ (ctA6.data ++ (ctA7.data ++ (ctA8.data ++ (ctA9.data ++ (ctA10.data ++ (ctA11.data ++ (ctA12.data ++ (ctB0.data ++ (ctB1.data))))))))))) = some 4986 := by
    rw [findSub_append_none metaStart mne ctA4.data (ctA5.data ++ (ctA6.data ++ (ctA7.data ++ (ctA8.data ++ (ctA9.data ++ (ctA10.data ++ (ctA11.data ++ (ctA12.data ++ (ctB0.data ++ (ctB1.data)))))))))) h4, t5]
    rfl
  have h3 : findSub metaStart (ctA3.data ++ (ctA4.data ++ (ctA5.data ++ (ctA6.data ++ (ctA7.data ++ (ctA8.data ++ (ctA9.data ++ (ctA10.data ++ (ctA11.data ++ (ctA12.data ++ (ctB0.data ++ (ctB1.data))))))))))).take (metaStart.length - 1)) = none := by rfl
  have t3 : findSub metaStart (ctA3.data ++ (ctA4.data ++ (ctA5.data ++ (ctA6.data ++ (ctA7.data ++ (ctA8.data ++ (ctA9.data ++ (ctA10.data ++ (ctA11.data ++ (ctA12.data ++ (ctB0.data ++ (ctB1.data)))))))))))) = some 5586 := by
    rw [findSub_append_none metaStart mne ctA3.data (ctA4.data ++ (ctA5.data ++ (ctA6.data ++ (ctA7.data ++ (ctA8.data ++ (ctA9.data ++ (ctA10.data ++ (ctA11.data ++ (ctA12.data ++ (ctB0.data ++ (ctB1.data))))))))))) h3, t4]
    rfl
  have h2 : findSub metaStart (ctA2.data ++ (ctA3.data ++ (ctA4.data ++ (ctA5.data ++ (ctA6.data ++ (ctA7.data ++ (ctA8.data ++ (ctA9.data ++ (ctA10.data ++ (ctA11.data ++ (ctA12.data ++ (ctB0.data ++ (ctB1.data)))))))))))).take (metaStart.length - 1)) = none := by rfl
  have t2 : findSub metaStart (ctA2.data ++ (ctA3.data ++ (ctA4.data ++ (ctA5.data ++ (ctA6.data ++ (ctA7.data ++ (ctA8.data ++ (ctA9.data ++ (ctA10.data ++ (ctA11.data ++ (ctA12.data ++ (ctB0.data ++ (ctB1.data))))))))))))) = some 6186 := by
    rw [findSub_append_none metaStart mne ctA2.data (ctA3.data ++ (ctA4.data ++ (ctA5.data ++ (ctA6.data ++ (ctA7.data ++ (ctA8.data ++ (ctA9.data ++ (ctA10.data ++ (ctA11.data ++ (ctA12.data ++ (ctB0.data ++ (ctB1.data)))))))))))) h2, t3]
    rfl
  have h1 : findSub metaStart (ctA1.data ++ (ctA2.data ++ (ctA3.data ++ (ctA4.data ++ (ctA5.data ++ (ctA6.data ++ (ctA7.data ++ (ctA8.data ++ (ctA9.data ++ (ctA10.data ++ (ctA11.data ++ (ctA12.data ++ (ctB0.data ++ (ctB1.data))))))))))))).take (metaStart.length - 1)) = none := by rfl
  have t1 : findSub metaStart (ctA1.data ++ (ctA2.data ++ (ctA3.data ++ (ctA4.data ++ (ctA5.data ++ (ctA6.data ++ (ctA7.data ++ (ctA8.data ++ (ctA9.data ++ (ctA10.data ++ (ctA11.data ++ (ctA12.data ++ (ctB0.data ++ (ctB1.data)))))))))))))) = some 6786 := by
    rw [findSub_append_none metaStart mne ctA1.data (ctA2.data ++ (ctA3.data ++ (ctA4.data ++ (ctA5.data ++ (ctA6.data ++ (ctA7.data ++ (ctA8.data ++ (ctA9.data ++ (ctA10.data ++ (ctA11.data ++ (ctA12.data ++ (ctB0.data ++ (ctB1.data))))))))))))) h1, t2]
    rfl
  have h0 : findSub metaStart (ctA0.data ++ (ctA1.data ++ (ctA2.data ++ (ctA3.data ++ (ctA4.data ++ (ctA5.data ++ (ctA6.data ++ (ctA7.data ++ (ctA8.data ++ (ctA9.data ++ (ctA10.data ++ (ctA11.data ++ (ctA12.data ++ (ctB0.data ++ (ctB1.data)))))))))))))).take (metaStart.length - 1)) = none := by rfl
  have t0 : findSub metaStart (ctA0.data ++ (ctA1.data ++ (ctA2.data ++ (ctA3.data ++ (ctA4.data ++ (ctA5.data ++ (ctA6.data ++ (ctA7.data ++ (ctA8.data ++ (ctA9.data ++ (ctA10.data ++ (ctA11.data ++ (ctA12.data ++ (ctB0.data ++ (ctB1.data))))))))))))))) = some 7386 := by
    rw [findSub_append_none metaStart mne ctA0.data (ctA1.data ++ (ctA2.data ++ (ctA3.data ++ (ctA4.data ++ (ctA5.data ++ (ctA6.data ++ (ctA7.data ++ (ctA8.data ++ (ctA9.data ++ (ctA10.data ++ (ctA11.data ++ (ctA12.data ++ (ctB0.data ++ (ctB1.data)))))))))))))) h0, t1]
    rfl
  rw [containerSrc_data]
  exact t0

/-- Dropping the text up to the end of the start-marker occurrence leaves exactly the two tail chunks. -/
theorem container_drop_tail : ansibleFlagParserContainerSrc.data.drop 7403 = ctB0.data ++ (ctB1.data) := by
  rw [containerSrc_data]
  rw [show (7403 : Nat) = ctA0.data.length + 6803 from by rfl, List.drop_append]
  rw [show (6803 : Nat) = ctA1.data.length + 6203 from by rfl, List.drop_append]
  rw [show (6203 : Nat) = ctA2.data.length + 5603 from by rfl, List.drop_append]
  rw [show (5603 : Nat) = ctA3.data.length + 5003 from by rfl, List.drop_append]
  rw [show (5003 : Nat) = ctA4.data.length + 4403 from by rfl, List.drop_append]
  rw [show (4403 : Nat) = ctA5.data.length + 3803 from by rfl, List.drop_append]
  rw [show (3803 : Nat) = ctA6.data.length + 3203 from by rfl, List.drop_append]
  rw [show (3203 : Nat) = ctA7.data.length + 2603 from by rfl, List.drop_append]
  rw [show (2603 : Nat) = ctA8.data.length + 2003 from by rfl, List.drop_append]
  rw [show (2003 : Nat) = ctA9.data.length + 1403 from by rfl, List.drop_append]
  rw [show (1403 : Nat) = ctA10.data.length + 803 from by rfl, List.drop_append]
  rw [show (803 : Nat) = ctA11.data.length + 203 from by rfl, List.drop_append]
  rw [show (203 : Nat) = ctA12.data.length + 0 from by rfl, List.drop_append]
  rfl

/-- No end marker occurs after the start marker in `ansible-flag-parser-container.py`. -/
theorem container_no_metaEnd : findSub metaEnd (ctB0.data ++ (ctB1.data)) = none := by
  have ene : metaEnd ≠ [] := by decide
  have t1 : findSub metaEnd ctB1.data = none := by rfl
  have h0 : findSub metaEnd (ctB0.data ++ (ctB1.data).take (metaEnd.length - 1)) = none := by rfl
  have t0 : findSub metaEnd (ctB0.data ++ (ctB1.data)) = none := by
    rw [findSub_append_none metaEnd ene ctB0.data (ctB1.data) h0, t1]
    rfl
  exact t0

/-- `load_metadata_from_self` raises when the start marker does not occur. -/
theorem load_metadata_error_of_no_start (content : String)
    (h1 : findSub metaStart content.data = none) :
    load_metadata_from_self content = .error "No metadata found in the script." := by
  unfold load_metadata_from_self
  rw [h1]

/-- `load_metadata_from_self` raises when no end marker follows the
(leftmost) start marker. -/
theorem load_metadata_error_of_no_end (content : String) (i : Nat)
    (h1 : findSub metaStart content.data = some i)
    (h2 : findSub metaEnd (content.data.drop (i + metaStart.length)) = none) :
    load_metadata_from_self content = .error "No metadata found in the script." := by
  unfold load_metadata_from_self
  rw [h1]
  show (match findSub metaEnd (content.data.drop (i + metaStart.length)) with
        | none => Except.error "No metadata found in the script."
        | some j =>
          Except.ok (⟨(content.data.drop (i + metaStart.length)).take j⟩ : String))
      = Except.error "No metadata found in the script."
  rw [h2]

/-- A metadata failure propagates out of `main`. -/
theorem flag_parser_main_error (content : String) (e : String)
    (h : load_metadata_from_self content = .error e) :
    flag_parser_main content = .error e := by
  unfold flag_parser_main
  rw [h]

/-- Projection: the lexer component of one logical-line step is exactly
one lexer step. -/
theorem pyLineStep_scan (st : PyLineScan) (c : Char) :
    (pyLineStep st c).scan = pyScanStep st.scan c := by
  unfold pyLineStep
  dsimp only
  split
  · split <;> rfl
  · split <;> first | rfl | (split <;> rfl)

/-- Projection: the lexer component of a logical-line run is exactly a
lexer run. -/
theorem pyLineRun_scan :
    ∀ (cs : List Char) (st : PyLineScan),
      (pyLineRun st cs).scan = pyScan st.scan cs := by
  intro cs
  induction cs with
  | nil => intro st; rfl
  | cons c cs ih =>
    intro st
    show (pyLineRun (pyLineStep st c) cs).scan = pyScan (pyScanStep st.scan c) cs
    rw [ih (pyLineStep st c), pyLineStep_scan]

/-- `pyLineRun` distributes over concatenation (it is a left fold). -/
theorem pyLineRun_append (st : PyLineScan) (A B : List Char) :
    pyLineRun st (A ++ B) = pyLineRun (pyLineRun st A) B :=
  List.foldl_append _ _ _ _

/-- Logical-line scan of `ansible-flag-parser.py`: it ends in code mode with an empty bracket stack and no bare-colon line at all. -/
theorem flagParser_line_scan :
    pyLineRun pyLineInit ansibleFlagParserSrc.data = ⟨⟨PyLexMode.code, [], true⟩, [], 0⟩ := by
  have s0 : pyLineRun pyLineInit flagP0.data = ⟨⟨PyLexMode.code, [], true⟩, (("    if m" : String).data).reverse, 0⟩ := by
    rw [show flagP0.data = flagP0.data.take 300 ++ flagP0.data.drop 300 from (List.take_append_drop 300 flagP0.data).symm]
    rw [pyLineRun_append]
    rw [show pyLineRun pyLineInit (flagP0.data.take 300) = ⟨⟨PyLexMode.str3 (Char.ofNat 34) 0, [], true⟩, (("    \"\"\"Load metadata by reading YAML directly" : String).data).reverse, 0⟩ from by rfl]
    rfl
  have s1 : pyLineRun ⟨⟨PyLexMode.code, [], true⟩, (("    if m" : String).data).reverse, 0⟩ flagP1.data = ⟨⟨PyLexMode.code, [Char.ofNat 40], true⟩, (("        parser.add_argument(\n            f\"--\x7bflag\x7d\",\n            help=properties.get(\"help\", \"\"),\n   " : String).data).reverse, 0⟩ := by
    rw [show flagP1.data = flagP1.data.take 300 ++ flagP1.data.drop 300 from (List.take_append_drop 300 flagP1.data).symm]
    rw [pyLineRun_append]
    rw [show pyLineRun ⟨⟨PyLexMode.code, [], true⟩, (("    if m" : String).data).reverse, 0⟩ (flagP1.data.take 300) = ⟨⟨PyLexMode.str1 (Char.ofNat 34), [Char.ofNat 40], true⟩, (("    parser = argparse.ArgumentParser(description=\"Fl" : String).data).reverse, 0⟩ from by rfl]
    rfl
  have s2 : pyLineRun ⟨⟨PyLexMode.code, [Char.ofNat 40], true⟩, (("        parser.add_argument(\n            f\"--\x7bflag\x7d\",\n            help=properties.get(\"help\", \"\"),\n   " : String).data).reverse, 0⟩ flagP2.data = ⟨⟨PyLexMode.str3 (Char.ofNat 34) 0, [], true⟩, (("    \"\"\"Disable " : String).data).reverse, 0⟩ := by
    rw [show flagP2.data = flagP2.data.take 300 ++ flagP2.data.drop 300 from (List.take_append_drop 300 flagP2.data).symm]
    rw [pyLineRun_append]
    rw [show pyLineRun ⟨⟨PyLexMode.code, [Char.ofNat 40], true⟩, (("        parser.add_argument(\n            f\"--\x7bflag\x7d\",\n            help=properties.get(\"help\", \"\"),\n   " : String).data).reverse, 0⟩ (flagP2.data.take 300) = ⟨⟨PyLexMode.str1 (Char.ofNat 34), [Char.ofNat 40], true⟩, (("    parser.add_argument(\"--rescue" : String).data).reverse, 0⟩ from by rfl]
    rfl
  have s3 : pyLineRun ⟨⟨PyLexMode.str3 (Char.ofNat 34) 0, [], true⟩, (("    \"\"\"Disable " : String).data).reverse, 0⟩ flagP3.data = ⟨⟨PyLexMode.code, [Char.ofNat 123], true⟩, (("    extra_vars = \x7bflag: getattr(args, flag) for fl" : String).data).reverse, 0⟩ := by
    rw [show flagP3.data = flagP3.data.take 300 ++ flagP3.data.drop 300 from (List.take_append_drop 300 flagP3.data).symm]
    rw [pyLineRun_append]
    rw [show pyLineRun ⟨⟨PyLexMode.str3 (Char.ofNat 34) 0, [], true⟩, (("    \"\"\"Disable " : String).data).reverse, 0⟩ (flagP3.data.take 300) = ⟨⟨PyLexMode.comment, [], true⟩, (("    " : String).data).reverse, 0⟩ from by rfl]
    rfl
  have s4 : pyLineRun ⟨⟨PyLexMode.code, [Char.ofNat 123], true⟩, (("    extra_vars = \x7bflag: getattr(args, flag) for fl" : String).data).reverse, 0⟩ flagP4.data = ⟨⟨PyLexMode.code, [], true⟩, [], 0⟩ := by
    rw [show flagP4.data = flagP4.data.take 300 ++ flagP4.data.drop 300 from (List.take_append_drop 300 flagP4.data).symm]
    rw [pyLineRun_append]
    rw [show pyLineRun ⟨⟨PyLexMode.code, [Char.ofNat 123], true⟩, (("    extra_vars = \x7bflag: getattr(args, flag) for fl" : String).data).reverse, 0⟩ (flagP4.data.take 300) = ⟨⟨PyLexMode.comment, [], true⟩, (("        command.append(\"--rescuer-playbook\")  " : String).data).reverse, 0⟩ from by rfl]
    rfl
  rw [flagParserSrc_data]
  rw [pyLineRun_append, s0]
  rw [pyLineRun_append, s1]
  rw [pyLineRun_append, s2]
  rw [pyLineRun_append, s3]
  exact s4

/-- Logical-line scan of `ansible-flag-parser-container.py`: eight comment-stripped logical lines end in a bare colon without being compound-statement headers (the lines of the raw YAML tail, `flags:` at line 189 first). -/
theorem container_line_scan :
    pyLineRun pyLineInit ansibleFlagParserContainerSrc.data = ⟨⟨PyLexMode.code, [], true⟩, [], 8⟩ := by
  have s0 : pyLineRun pyLineInit ctA0.data = ⟨⟨PyLexMode.code, [], true⟩, (("        metadata_yaml = metadata_match." : String).data).reverse, 0⟩ := by
    rw [show ctA0.data = ctA0.data.take 300 ++ ctA0.data.drop 300 from (List.take_append_drop 300 ctA0.data).symm]
    rw [pyLineRun_append]
    rw [show pyLineRun pyLineInit (ctA0.data.take 300) = ⟨⟨PyLexMode.code, [Char.ofNat 40], true⟩, (("    with open(__file_" : String).data).reverse, 0⟩ from by rfl]
    rfl
  have s1 : pyLineRun ⟨⟨PyLexMode.code, [], true⟩, (("        metadata_yaml = metadata_match." : String).data).reverse, 0⟩ ctA1.data = ⟨⟨PyLexMode.code, [Char.ofNat 40], true⟩, (("        parser.add_argument(\n            f\"--\x7bflag\x7d\",\n            help=properties.get(\"help\", \"\"),\n            required=properties.get(\"required\", False),\n " : String).data).reverse, 0⟩ := by
    rw [show ctA1.data = ctA1.data.take 300 ++ ctA1.data.drop 300 from (List.take_append_drop 300 ctA1.data).symm]
    rw [pyLineRun_append]
    rw [show pyLineRun ⟨⟨PyLexMode.code, [], true⟩, (("        metadata_yaml = metadata_match." : String).data).reverse, 0⟩ (ctA1.data.take 300) = ⟨⟨PyLexMode.comment, [], true⟩, (("    " : String).data).reverse, 0⟩ from by rfl]
    rfl
  have s2 : pyLineRun ⟨⟨PyLexMode.code, [Char.ofNat 40], true⟩, (("        parser.add_argument(\n            f\"--\x7bflag\x7d\",\n            help=properties.get(\"help\", \"\"),\n            required=properties.get(\"required\", False),\n " : String).data).reverse, 0⟩ ctA2.data = ⟨⟨PyLexMode.code, [], true⟩, (("    signal.si" : String).data).reverse, 0⟩ := by
    rw [show ctA2.data = ctA2.data.take 300 ++ ctA2.data.drop 300 from (List.take_append_drop 300 ctA2.data).symm]
    rw [pyLineRun_append]
    rw [show pyLineRun ⟨⟨PyLexMode.code, [Char.ofNat 40], true⟩, (("        parser.add_argument(\n            f\"--\x7bflag\x7d\",\n            help=properties.get(\"help\", \"\"),\n            required=properties.get(\"required\", False),\n " : String).data).reverse, 0⟩ (ctA2.data.take 300) = ⟨⟨PyLexMode.str1 (Char.ofNat 34), [Char.ofNat 40], true⟩, (("    parser.add_argument(\"--rescuer\", action=\"store_true\", help=\"Execute rescuer playboo" : String).data).reverse, 0⟩ from by rfl]
    rfl
  have s3 : pyLineRun ⟨⟨PyLexMode.code, [], true⟩, (("    signal.si" : String).data).reverse, 0⟩ ctA3.data = ⟨⟨PyLexMode.code, [Char.ofNat 91], true⟩, (("    command = [\n        co" : String).data).reverse, 0⟩ := by
    rw [show ctA3.data = ctA3.data.take 300 ++ ctA3.data.drop 300 from (List.take_append_drop 300 ctA3.data).symm]
    rw [pyLineRun_append]
    rw [show pyLineRun ⟨⟨PyLexMode.code, [], true⟩, (("    signal.si" : String).data).reverse, 0⟩ (ctA3.data.take 300) = ⟨⟨PyLexMode.code, [], true⟩, (("        yaml" : String).data).reverse, 0⟩ from by rfl]
    rfl
  have s4 : pyLineRun ⟨⟨PyLexMode.code, [Char.ofNat 91], true⟩, (("    command = [\n        co" : String).data).reverse, 0⟩ ctA4.data = ⟨⟨PyLexMode.str3 (Char.ofNat 34) 0, [], true⟩, (("    \"\"\"Log a message to syslog based " : String).data).reverse, 0⟩ := by
    rw [show ctA4.data = ctA4.data.take 300 ++ ctA4.data.drop 300 from (List.take_append_drop 300 ctA4.data).symm]
    rw [pyLineRun_append]
    rw [show pyLineRun ⟨⟨PyLexMode.code, [Char.ofNat 91], true⟩, (("    command = [\n        co" : String).data).reverse, 0⟩ (ctA4.data.take 300) = ⟨⟨PyLexMode.code, [Char.ofNat 91], true⟩, (("    command = [\n        container_engine, \"run\", \"--rm\",\n        \"-v\", f\"\x7broles_dir\x7d:/root/.ansible/roles\",\n        \"-v\", f\"\x7bcollections_dir\x7d:/root/.ansible/collections\",\n        \"-v\", f\"\x7bos.getcwd()\x7d:/workspace\",\n        \"-w\", \"/workspace\",\n        container_image,\n        \"ansible-galaxy\", \"install\", \"-r\", requirements_fil" : String).data).reverse, 0⟩ from by rfl]
    rfl
  have s5 : pyLineRun ⟨⟨PyLexMode.str3 (Char.ofNat 34) 0, [], true⟩, (("    \"\"\"Log a message to syslog based " : String).data).reverse, 0⟩ ctA5.data = ⟨⟨PyLexMode.code, [], true⟩, [], 0⟩ := by
    rw [show ctA5.data = ctA5.data.take 300 ++ ctA5.data.drop 300 from (List.take_append_drop 300 ctA5.data).symm]
    rw [pyLineRun_append]
    rw [show pyLineRun ⟨⟨PyLexMode.str3 (Char.ofNat 34) 0, [], true⟩, (("    \"\"\"Log a message to syslog based " : String).data).reverse, 0⟩ (ctA5.data.take 300) = ⟨⟨PyLexMode.comment, [], true⟩, (("    " : String).data).reverse, 0⟩ from by rfl]
    rfl
  have s6 : pyLineRun ⟨⟨PyLexMode.code, [], true⟩, [], 0⟩ ctA6.data = ⟨⟨PyLexMode.code, [], true⟩, ((" " : String).data).reverse, 0⟩ := by
    rw [show ctA6.data = ctA6.data.take 300 ++ ctA6.data.drop 300 from (List.take_append_drop 300 ctA6.data).symm]
    rw [pyLineRun_append]
    rw [show pyLineRun ⟨⟨PyLexMode.code, [], true⟩, [], 0⟩ (ctA6.data.take 300) = ⟨⟨PyLexMode.comment, [], true⟩, (("    " : String).data).reverse, 0⟩ from by rfl]
    rfl
  have s7 : pyLineRun ⟨⟨PyLexMode.code, [], true⟩, ((" " : String).data).reverse, 0⟩ ctA7.data = ⟨⟨PyLexMode.str1 (Char.ofNat 34), [Char.ofNat 40], true⟩, (("    collections_dir = os.path.join(requirements_dir, \"collecti" : String).data).reverse, 0⟩ := by
    rw [show ctA7.data = ctA7.data.take 300 ++ ctA7.data.drop 300 from (List.take_append_drop 300 ctA7.data).symm]
    rw [pyLineRun_append]
    rw [show pyLineRun ⟨⟨PyLexMode.code, [], true⟩, ((" " : String).data).reverse, 0⟩ (ctA7.data.take 300) = ⟨⟨PyLexMode.str1 (Char.ofNat 34), [Char.ofNat 40], true⟩, (("    container_image = metadata.get(\"container_image\", \"quay.io/ansi" : String).data).reverse, 0⟩ from by rfl]
    rfl
  have s8 : pyLineRun ⟨⟨PyLexMode.str1 (Char.ofNat 34), [Char.ofNat 40], true⟩, (("    collections_dir = os.path.join(requirements_dir, \"collecti" : String).data).reverse, 0⟩ ctA8.data = ⟨⟨PyLexMode.comment, [], true⟩, (("            " : String).data).reverse, 0⟩ := by
    rw [show ctA8.data = ctA8.data.take 300 ++ ctA8.data.drop 300 from (List.take_append_drop 300 ctA8.data).symm]
    rw [pyLineRun_append]
    rw [show pyLineRun ⟨⟨PyLexMode.str1 (Char.ofNat 34), [Char.ofNat 40], true⟩, (("    collections_dir = os.path.join(requirements_dir, \"collecti" : String).data).reverse, 0⟩ (ctA8.data.take 300) = ⟨⟨PyLexMode.code, [], true⟩, (("        requirements_file = write_temp_requirements" : String).data).reverse, 0⟩ from by rfl]
    rfl
  have s9 : pyLineRun ⟨⟨PyLexMode.comment, [], true⟩, (("            " : String).data).reverse, 0⟩ ctA9.data = ⟨⟨PyLexMode.code, [], true⟩, (("        " : String).data).reverse, 0⟩ := by
    rw [show ctA9.data = ctA9.data.take 300 ++ ctA9.data.drop 300 from (List.take_append_drop 300 ctA9.data).symm]
    rw [pyLineRun_append]
    rw [show pyLineRun ⟨⟨PyLexMode.comment, [], true⟩, (("            " : String).data).reverse, 0⟩ (ctA9.data.take 300) = ⟨⟨PyLexMode.str1 (Char.ofNat 34), [Char.ofNat 40], true⟩, (("            log_message(\"Installing Ansible requirements loc" : String).data).reverse, 0⟩ from by rfl]
    rfl
  have s10 : pyLineRun ⟨⟨PyLexMode.code, [], true⟩, (("        " : String).data).reverse, 0⟩ ctA10.data = ⟨⟨PyLexMode.code, [], true⟩, ((" " : String).data).reverse, 0⟩ := by
    rw [show ctA10.data = ctA10.data.take 300 ++ ctA10.data.drop 300 from (List.take_append_drop 300 ctA10.data).symm]
    rw [pyLineRun_append]
    rw [show pyLineRun ⟨⟨PyLexMode.code, [], true⟩, (("        " : String).data).reverse, 0⟩ (ctA10.data.take 300) = ⟨⟨PyLexMode.str1 (Char.ofNat 34), [Char.ofNat 91], true⟩, (("        command = [\n            container_engine, \"run\", \"--rm\",\n            \"-v\", f\"\x7broles_dir\x7d:/root/.ansible/r" : String).data).reverse, 0⟩ from by rfl]
    rfl
  have s11 : pyLineRun ⟨⟨PyLexMode.code, [], true⟩, ((" " : String).data).reverse, 0⟩ ctA11.data = ⟨⟨PyLexMode.comment, [], true⟩, (("        " : String).data).reverse, 0⟩ := by
    rw [show ctA11.data = ctA11.data.take 300 ++ ctA11.data.drop 300 from (List.take_append_drop 300 ctA11.data).symm]
    rw [pyLineRun_append]
    rw [show pyLineRun ⟨⟨PyLexMode.code, [], true⟩, ((" " : String).data).reverse, 0⟩ (ctA11.data.take 300) = ⟨⟨PyLexMode.str1 (Char.ofNat 34), [], true⟩, (("        result = f\"FAILED with exit code" : String).data).reverse, 0⟩ from by rfl]
    rfl
  have s12 : pyLineRun ⟨⟨PyLexMode.comment, [], true⟩, (("        " : String).data).reverse, 0⟩ ctA12.data = ⟨⟨PyLexMode.code, [], true⟩, [], 0⟩ := by rfl
  have s13 : pyLineRun ⟨⟨PyLexMode.code, [], true⟩, [], 0⟩ ctB0.data = ⟨⟨PyLexMode.comment, [], true⟩, (("container_engine: \"podman\"     " : String).data).reverse, 5⟩ := by
    rw [show ctB0.data = ctB0.data.take 300 ++ ctB0.data.drop 300 from (List.take_append_drop 300 ctB0.data).symm]
    rw [pyLineRun_append]
    rw [show pyLineRun ⟨⟨PyLexMode.code, [], true⟩, [], 0⟩ (ctB0.data.take 300) = ⟨⟨PyLexMode.code, [], true⟩, (("   " : String).data).reverse, 5⟩ from by rfl]
    rfl
  have s14 : pyLineRun ⟨⟨PyLexMode.comment, [], true⟩, (("container_engine: \"podman\"     " : String).data).reverse, 5⟩ ctB1.data = ⟨⟨PyLexMode.code, [], true⟩, [], 8⟩ := by
    rw [show ctB1.data = ctB1.data.take 300 ++ ctB1.data.drop 300 from (List.take_append_drop 300 ctB1.data).symm]
    rw [pyLineRun_append]
    rw [show pyLineRun ⟨⟨PyLexMode.comment, [], true⟩, (("container_engine: \"podman\"     " : String).data).reverse, 5⟩ (ctB1.data.take 300) = ⟨⟨PyLexMode.code, [], true⟩, (("    - name: community.gener" : String).data).reverse, 8⟩ from by rfl]
    rfl
  rw [containerSrc_data]
  rw [pyLineRun_append, s0]
  rw [pyLineRun_append, s1]
  rw [pyLineRun_append, s2]
  rw [pyLineRun_append, s3]
  rw [pyLineRun_append, s4]
  rw [pyLineRun_append, s5]
  rw [pyLineRun_append, s6]
  rw [pyLineRun_append, s7]
  rw [pyLineRun_append, s8]
  rw [pyLineRun_append, s9]
  rw [pyLineRun_append, s10]
  rw [pyLineRun_append, s11]
  rw [pyLineRun_append, s12]
  rw [pyLineRun_append, s13]
  exact s14

/-- Evaluating `pyBareColonCount` through a computed final scanner
state. -/
theorem pyBareColonCount_eq (src : String) (fin : PyLineScan)
    (h : pyLineRun pyLineInit src.data = fin) :
    pyBareColonCount src
      = fin.bad + (if pyBareColonLine fin.cur.reverse then 1 else 0) := by
  unfold pyBareColonCount
  rw [h]

/-- The full lexer run is the lexer component of the logical-line run. -/
theorem pyScan_from_lineRun (src : List Char) :
    pyScan pyScanInit src = (pyLineRun pyLineInit src).scan :=
  (pyLineRun_scan src pyLineInit).symm

/-- Evaluating `python_brackets_closed` through a computed final lexer
state. -/
theorem python_brackets_closed_eq (src : String) (fin : PyScanState)
    (h : pyScan pyScanInit src.data = fin) :
    python_brackets_closed src
      = (fin.ok && fin.stack.isEmpty
          && (fin.mode == PyLexMode.code || fin.mode == PyLexMode.comment)) := by
  unfold python_brackets_closed
  rw [h]

/-- `ansible-flag-parser.py` has no bare-colon logical line. -/
theorem flagParser_bare_colon_count : pyBareColonCount ansibleFlagParserSrc = 0 := by
  rw [pyBareColonCount_eq ansibleFlagParserSrc _ flagParser_line_scan]
  rfl

/-- `ansible-flag-parser-container.py` has eight bare-colon logical
lines (its raw YAML tail). -/
theorem container_bare_colon_count : pyBareColonCount ansibleFlagParserContainerSrc = 8 := by
  rw [pyBareColonCount_eq ansibleFlagParserContainerSrc _ container_line_scan]
  rfl

/-- `ansible-flag-parser.py` also passes the bracket-completeness check. -/
theorem flagParser_brackets_closed : python_brackets_closed ansibleFlagParserSrc = true := by
  have h : pyScan pyScanInit ansibleFlagParserSrc.data
      = (⟨PyLexMode.code, [], true⟩ : PyScanState) := by
    rw [pyScan_from_lineRun, flagParser_line_scan]
  rw [python_brackets_closed_eq ansibleFlagParserSrc _ h]
  rfl

/-- **C5, counterexample.** The claim that `ansible-flag-parser-container.py`
raises `ValueError("No metadata found in the script.")` on every run is
false: the file is not a syntactically valid Python module.  Its
comment-stripped logical-line scan finds eight lines that end in a bare
colon without being compound-statement headers — the raw YAML of its
metadata tail, starting with `flags:` at line 189, exactly where CPython
reports `SyntaxError: invalid syntax` — so every invocation dies at load
time and `main()` (hence `load_metadata_from_self` and its `ValueError`)
is never reached. -/
theorem C5_counterexample :
    pyBareColonCount ansibleFlagParserContainerSrc = 8 ∧
      pyBareColonCount ansibleFlagParserContainerSrc ≠ 0 := by
  refine ⟨container_bare_colon_count, ?_⟩
  rw [container_bare_colon_count]
  decide

/-- **C5, amended.** Both flag-parser proof-of-concept scripts fail on
every invocation before launching any playbook, but differently:
`ansible-flag-parser.py` is a well-formed module (no bare-colon logical
line, brackets balanced) whose `main()` raises
`ValueError("No metadata found in the script.")` because the start
marker followed by a newline occurs nowhere in its text; while
`ansible-flag-parser-container.py` is not valid Python at all (eight
bare-colon logical lines in its raw YAML tail) and dies with a
`SyntaxError` at load time, never reaching `main()` — and even its text
contains no complete metadata block, the start marker at character 7386
never being followed by an end marker. -/
theorem C5_flag_parser_fail_modes :
    flag_parser_main ansibleFlagParserSrc = .error "No metadata found in the script." ∧
    findSub metaStart ansibleFlagParserSrc.data = none ∧
    pyBareColonCount ansibleFlagParserSrc = 0 ∧
    python_brackets_closed ansibleFlagParserSrc = true ∧
    pyBareColonCount ansibleFlagParserContainerSrc = 8 ∧
    findSub metaStart ansibleFlagParserContainerSrc.data = some 7386 ∧
    findSub metaEnd (ansibleFlagParserContainerSrc.data.drop (7386 + metaStart.length)) = none := by
  have hdrop : ansibleFlagParserContainerSrc.data.drop (7386 + metaStart.length)
      = ctB0.data ++ (ctB1.data) := by
    rw [show (7386 + metaStart.length) = 7403 from by rfl]
    exact container_drop_tail
  have hend : findSub metaEnd (ansibleFlagParserContainerSrc.data.drop (7386 + metaStart.length)) = none := by
    rw [hdrop]
    exact container_no_metaEnd
  refine ⟨?_, flagParser_no_metaStart, flagParser_bare_colon_count,
    flagParser_brackets_closed, container_bare_colon_count,
    container_metaStart_at, hend⟩
  exact flag_parser_main_error _ _ (load_metadata_error_of_no_start _ flagParser_no_metaStart)

/-- Chunk decomposition of the embedded `ansible-write.py` text (without its last line). -/
theorem ansibleWriteBody_data : ansibleWriteBody.data = aw0.data ++ (aw1.data ++ (aw2.data ++ (aw3.data ++ (aw4.data ++ (aw5.data ++ (aw6.data ++ (aw7.data ++ (aw8.data ++ (aw9.data ++ (aw10.data ++ (aw11.data ++ (aw12.data ++ (aw13.data ++ (aw14.data ++ (aw15.data ++ (aw16.data ++ (aw17.data ++ (aw18.data ++ (aw19.data ++ (aw20.data)))))))))))))))))))) := by
  simp only [ansibleWriteBody, String.data_append]

/-- `pyScan` distributes over concatenation (it is a left fold). -/
theorem pyScan_append (st : PyScanState) (A B : List Char) :
    pyScan st (A ++ B) = pyScan (pyScan st A) B :=
  List.foldl_append _ _ _ _

/-- Scanning everything before the last line of `ansible-write.py` ends cleanly: code mode, empty bracket stack. -/
theorem ansibleWriteBody_scan : pyScan pyScanInit ansibleWriteBody.data = pyScanInit := by
  have s0 : pyScan pyScanInit aw0.data = pyScanInit := by rfl
  have s1 : pyScan pyScanInit aw1.data = pyScanInit := by rfl
  have s2 : pyScan pyScanInit aw2.data = pyScanInit := by rfl
  have s3 : pyScan pyScanInit aw3.data = pyScanInit := by rfl
  have s4 : pyScan pyScanInit aw4.data = pyScanInit := by rfl
  have s5 : pyScan pyScanInit aw5.data = pyScanInit := by rfl
  have s6 : pyScan pyScanInit aw6.data = pyScanInit := by rfl
  have s7 : pyScan pyScanInit aw7.data = pyScanInit := by rfl
  have s8 : pyScan pyScanInit aw8.data = pyScanInit := by rfl
  have s9 : pyScan pyScanInit aw9.data = pyScanInit := by rfl
  have s10 : pyScan pyScanInit aw10.data = pyScanInit := by rfl
  have s11 : pyScan pyScanInit aw11.data = pyScanInit := by rfl
  have s12 : pyScan pyScanInit aw12.data = pyScanInit := by rfl
  have s13 : pyScan pyScanInit aw13.data = pyScanInit := by rfl
  have s14 : pyScan pyScanInit aw14.data = pyScanInit := by rfl
  have s15 : pyScan pyScanInit aw15.data = pyScanInit := by rfl
  have s16 : pyScan pyScanInit aw16.data = pyScanInit := by rfl
  have s17 : pyScan pyScanInit aw17.data = pyScanInit := by rfl
  have s18 : pyScan pyScanInit aw18.data = pyScanInit := by rfl
  have s19 : pyScan pyScanInit aw19.data = pyScanInit := by rfl
  have s20 : pyScan pyScanInit aw20.data = pyScanInit := by rfl
  rw [ansibleWriteBody_data]
  rw [pyScan_append, s0]
  rw [pyScan_append, s1]
  rw [pyScan_append, s2]
  rw [pyScan_append, s3]
  rw [pyScan_append, s4]
  rw [pyScan_append, s5]
  rw [pyScan_append, s6]
  rw [pyScan_append, s7]
  rw [pyScan_append, s8]
  rw [pyScan_append, s9]
  rw [pyScan_append, s10]
  rw [pyScan_append, s11]
  rw [pyScan_append, s12]
  rw [pyScan_append, s13]
  rw [pyScan_append, s14]
  rw [pyScan_append, s15]
  rw [pyScan_append, s16]
  rw [pyScan_append, s17]
  rw [pyScan_append, s18]
  rw [pyScan_append, s19]
  exact s20

/-- **C6.** The bracket scan of `ansible-write.py` ends with the list
comprehension bracket `[` and the `enumerate(` parenthesis of the last
line of `refresh_playbook_display` still open (the scan of everything
before that line is clean), so the file is not a bracket-complete —
hence not a syntactically complete — Python program, and every
invocation fails at load time, before any window is drawn or task
processed. -/
theorem C6_ansible_write_unterminated :
    pyScan pyScanInit ansibleWriteSrc.data
      = ⟨.code, [Char.ofNat 40, Char.ofNat 91], true⟩ ∧
    python_brackets_closed ansibleWriteSrc = false ∧
    pyScan pyScanInit ansibleWriteBody.data = pyScanInit := by
  have hsrc : ansibleWriteSrc.data = ansibleWriteBody.data ++ awLast.data := by
    simp only [ansibleWriteSrc, String.data_append]
  have hfull : pyScan pyScanInit ansibleWriteSrc.data
      = ⟨.code, [Char.ofNat 40, Char.ofNat 91], true⟩ := by
    rw [hsrc, pyScan_append, ansibleWriteBody_scan]
    rfl
  refine ⟨hfull, ?_, ansibleWriteBody_scan⟩
  unfold python_brackets_closed
  rw [hfull]
  rfl

end AnsibleTools
